import Mathlib

/-!
Rigid_mesh_collision_detection

A shallow embedding of `CGAL/Rigid_mesh_collision_detection.h`.

The class keeps, per registered mesh, an AABB tree, a closedness flag, a list
of points (one per connected component) and a traversal-traits object holding
the current affine transformation; with `CGAL_CACHE_BOXES` it also keeps a box
per mesh and a bitset of invalid boxes.

* `std::vector` is a `List`; an access outside the bounds of a vector is
  undefined behaviour in the source and is `none` here, so every member
  function returns an `Option`.
* The external collaborators (AABB tree, closedness test, connected
  components, ray-cast point location, boxes) are the fields of
  `Collaborators`; the preprocessor switch `CGAL_CACHE_BOXES` is one of them.
* A query returns its result together with the registry after the call,
  because `update_bboxes` refreshes the box cache.
-/

namespace CGAL

/-- Result of a point location query (`CGAL::Bounded_side`). -/
inductive Bounded_side where
  | ON_UNBOUNDED_SIDE
  | ON_BOUNDARY
  | ON_BOUNDED_SIDE
  deriving DecidableEq, Repr

/-- Modelled from the spec: the class `Do_intersect_traversal_traits_with_transformation`
is declared in `AABB_do_intersect_transform_traits.h`, which is not part of the
sources at hand.  The spec describes the per-body `transform` as the current
affine map, replaced wholesale on update; the object is built from the traits
of a tree, which it keeps. -/
structure Traversal_traits (Traits Aff : Type) where
  m_traits : Traits
  m_transfo : Aff
  deriving DecidableEq, Repr

/-- Replace the transformation held by a traversal-traits object. -/
def Traversal_traits.set_transformation {Traits Aff : Type}
    (tt : Traversal_traits Traits Aff) (aff_trans : Aff) : Traversal_traits Traits Aff :=
  { tt with m_transfo := aff_trans }

/-- Transformation currently held by a traversal-traits object. -/
def Traversal_traits.transformation {Traits Aff : Type}
    (tt : Traversal_traits Traits Aff) : Aff :=
  tt.m_transfo

/-- External collaborators of the class, and the compile-time switch. -/
structure Collaborators (Mesh Tree Traits Point Aff Bbox Vertex Face : Type) where
  /-- value of the preprocessor symbol `CGAL_CACHE_BOXES` -/
  CGAL_CACHE_BOXES : Bool
  /-- closedness test `is_closed(tm)` -/
  is_closed : Mesh → Bool
  /-- tree construction `new Tree(faces(tm).begin(), faces(tm).end(), tm)` -/
  new_Tree : Mesh → Tree
  /-- accessor `tree->traits()` -/
  traits : Tree → Traits
  /-- transformation held by a freshly constructed traversal-traits object -/
  fresh_transfo : Aff
  /-- face range `faces(tm)` -/
  faces : Mesh → List Face
  /-- face index map `get(fid_map, f)` -/
  face_index : Mesh → Face → Nat
  /-- number of components returned by `connected_components(tm, ...)` -/
  connected_components : Mesh → Nat
  /-- null vertex descriptor `GrT::null_vertex()` -/
  null_vertex : Vertex
  /-- vertex range `vertices(tm)` -/
  vertices : Mesh → List Vertex
  /-- point map `get(boost::vertex_point, tm, v)` -/
  vertex_point : Mesh → Vertex → Point
  /-- vertex `target(halfedge(f, tm), tm)` -/
  target_halfedge : Mesh → Face → Vertex
  /-- application of an affine transformation to a point -/
  transform : Aff → Point → Point
  /-- ray-cast point location `Point_inside_vertical_ray_cast(helper)(p, tree, ...)`;
  the helper is the one of the traversal traits given first -/
  Point_inside_vertical_ray_cast : Traversal_traits Traits Aff → Point → Tree → Bounded_side
  /-- outcome `is_intersection_found()` of `tree_k->traversal(tree_id, tt)` where
  `tt` is `Do_intersect_traversal_traits_for_two_trees(traits_k, transfo_k, tt_id)` -/
  two_trees_traversal : Traits → Aff → Traversal_traits Traits Aff → Tree → Tree → Bool
  /-- member `tree_k->do_intersect(tree_id)` of `AABB_tree`, which receives the two
  trees only -/
  do_intersect : Tree → Tree → Bool
  /-- box of a transformed tree, `helper.get_tree_bbox(tree)` -/
  get_tree_bbox : Traversal_traits Traits Aff → Tree → Bbox
  /-- box overlap test `do_overlap(b1, b2)` -/
  do_overlap : Bbox → Bbox → Bool
  /-- default constructed box `Bbox_3()` -/
  Bbox_3 : Bbox

/-- Data members of `Rigid_mesh_collision_detection`.  The last two exist only
when `CGAL_CACHE_BOXES` is set; they are never touched otherwise. -/
structure Rigid_mesh_collision_detection (Mesh Tree Traits Point Aff Bbox : Type) where
  m_triangle_mesh_ptrs : List Mesh
  m_aabb_trees : List Tree
  m_is_closed : List Bool
  m_points_per_cc : List (List Point)
  m_traversal_traits : List (Traversal_traits Traits Aff)
  m_bboxes_is_invalid : List Bool
  m_bboxes : List Bbox
  deriving DecidableEq, Repr

section Vectors

variable {α σ : Type}

/-- Write access `v[i] = x`; undefined outside the bounds. -/
def vec_assign (v : List α) (i : Nat) (x : α) : Option (List α) :=
  if i < v.length then some (v.set i x) else none

/-- Erasure `v.erase(v.begin() + i)`; undefined outside the bounds. -/
def vec_erase (v : List α) (i : Nat) : Option (List α) :=
  if i < v.length then some (v.eraseIdx i) else none

/-- Removal `v.pop_back()`; undefined on an empty vector. -/
def vec_pop_back (v : List α) : Option (List α) :=
  match v with
  | [] => none
  | _ :: _ => some v.dropLast

/-- Resizing `v.resize(n, x)`. -/
def vec_resize (v : List α) (n : Nat) (x : α) : List α :=
  v.take n ++ List.replicate (n - v.length) x

/-- Loop `BOOST_FOREACH(a, range) body`, the body acting on a state and able to fail. -/
def BOOST_FOREACH (body : σ → α → Option σ) : σ → List α → Option σ
  | s, [] => some s
  | s, a :: as =>
    match body s a with
    | none => none
    | some s1 => BOOST_FOREACH body s1 as

end Vectors

section Class

variable {Mesh Tree Traits Point Aff Bbox Vertex Face : Type} [DecidableEq Vertex]

/-- The object before the constructor body runs: every member is empty. -/
def empty_registry : Rigid_mesh_collision_detection Mesh Tree Traits Point Aff Bbox :=
  { m_triangle_mesh_ptrs := [], m_aabb_trees := [], m_is_closed := [],
    m_points_per_cc := [], m_traversal_traits := [], m_bboxes_is_invalid := [],
    m_bboxes := [] }

/-- Member `clear_trees`: delete every tree and clear the vector. -/
def clear_trees (s : Rigid_mesh_collision_detection Mesh Tree Traits Point Aff Bbox) :
    Rigid_mesh_collision_detection Mesh Tree Traits Point Aff Bbox :=
  { s with m_aabb_trees := [] }

/-- Statement `m_points_per_cc.back().push_back(p)`. -/
def back_push_back : List (List Point) → Point → List (List Point)
  | [], _ => []
  | [cc], p => [cc ++ [p]]
  | cc :: cc1 :: ccs, p => cc :: back_push_back (cc1 :: ccs) p

/-- Body of the loop over the faces in `add_cc_points` (several components). -/
def add_cc_points_body (c : Collaborators Mesh Tree Traits Point Aff Bbox Vertex Face)
    (tm : Mesh) (vertex_per_cc : List Vertex) (pts : List (List Point)) (f : Face) :
    Option (List (List Point)) :=
  match vertex_per_cc[c.face_index tm f]? with
  | none => none
  | some v =>
    if v ≠ c.null_vertex then
      some (back_push_back pts (c.vertex_point tm (c.target_halfedge tm f)))
    else some pts

/-- Member `add_cc_points`. -/
def add_cc_points (c : Collaborators Mesh Tree Traits Point Aff Bbox Vertex Face)
    (s : Rigid_mesh_collision_detection Mesh Tree Traits Point Aff Bbox)
    (tm : Mesh) (assume_one_CC : Bool) :
    Option (Rigid_mesh_collision_detection Mesh Tree Traits Point Aff Bbox) :=
  let pts := vec_resize s.m_points_per_cc (s.m_points_per_cc.length + 1) []
  -- only one CC
  let one_CC : Option (Rigid_mesh_collision_detection Mesh Tree Traits Point Aff Bbox) :=
    match c.vertices tm with
    | [] => none
    | v :: _ => some { s with m_points_per_cc := back_push_back pts (c.vertex_point tm v) }
  if !assume_one_CC then
    let nb_cc := c.connected_components tm
    if nb_cc ≠ 1 then
      let vertex_per_cc := List.replicate nb_cc c.null_vertex
      match BOOST_FOREACH (add_cc_points_body c tm vertex_per_cc) pts (c.faces tm) with
      | none => none
      | some pts1 => some { s with m_points_per_cc := pts1 }
    else one_CC
  else one_CC

/-- Body of the loop over the meshes in `init`. -/
def init_body (c : Collaborators Mesh Tree Traits Point Aff Bbox Vertex Face)
    (assume_one_CC : Bool)
    (s : Rigid_mesh_collision_detection Mesh Tree Traits Point Aff Bbox) (tm : Mesh) :
    Option (Rigid_mesh_collision_detection Mesh Tree Traits Point Aff Bbox) :=
  let closed : Option (List Bool) :=
    if c.is_closed tm then vec_assign s.m_is_closed s.m_triangle_mesh_ptrs.length true
    else some s.m_is_closed
  match closed with
  | none => none
  | some cl =>
    let t := c.new_Tree tm
    add_cc_points c
      { s with
        m_is_closed := cl
        m_triangle_mesh_ptrs := s.m_triangle_mesh_ptrs ++ [tm]
        m_aabb_trees := s.m_aabb_trees ++ [t]
        m_traversal_traits := s.m_traversal_traits ++ [⟨c.traits t, c.fresh_transfo⟩] }
      tm assume_one_CC

/-- Member `init`.  The vectors of meshes, points, trees and flags are cleared;
`m_traversal_traits` is only given to `reserve`, which keeps its elements. -/
def init (c : Collaborators Mesh Tree Traits Point Aff Bbox Vertex Face)
    (s : Rigid_mesh_collision_detection Mesh Tree Traits Point Aff Bbox)
    (triangle_meshes : List Mesh) (assume_one_CC : Bool) :
    Option (Rigid_mesh_collision_detection Mesh Tree Traits Point Aff Bbox) :=
  let nb_meshes := triangle_meshes.length
  let s1 := clear_trees { s with m_triangle_mesh_ptrs := [], m_points_per_cc := [] }
  let s2 := { s1 with m_is_closed := vec_resize [] nb_meshes false }
  let s3 :=
    if c.CGAL_CACHE_BOXES then
      { s2 with
        m_bboxes_is_invalid := vec_resize [] nb_meshes true
        m_bboxes := vec_resize [] nb_meshes c.Bbox_3 }
    else s2
  BOOST_FOREACH (init_body c assume_one_CC) s3 triangle_meshes

/-- Constructor of the class: `init` on an object with empty members. -/
def construct (c : Collaborators Mesh Tree Traits Point Aff Bbox Vertex Face)
    (triangle_meshes : List Mesh) (assume_one_CC_per_mesh : Bool) :
    Option (Rigid_mesh_collision_detection Mesh Tree Traits Point Aff Bbox) :=
  init c empty_registry triangle_meshes assume_one_CC_per_mesh

/-- Member `add_mesh`. -/
def add_mesh (c : Collaborators Mesh Tree Traits Point Aff Bbox Vertex Face)
    (s : Rigid_mesh_collision_detection Mesh Tree Traits Point Aff Bbox)
    (tm : Mesh) (assume_one_CC_per_mesh : Bool) :
    Option (Rigid_mesh_collision_detection Mesh Tree Traits Point Aff Bbox) :=
  let t := c.new_Tree tm
  let s1 : Rigid_mesh_collision_detection Mesh Tree Traits Point Aff Bbox :=
    { s with
      m_is_closed := s.m_is_closed ++ [c.is_closed tm]
      m_triangle_mesh_ptrs := s.m_triangle_mesh_ptrs ++ [tm]
      m_aabb_trees := s.m_aabb_trees ++ [t]
      m_traversal_traits := s.m_traversal_traits ++ [⟨c.traits t, c.fresh_transfo⟩] }
  let s2 :=
    if c.CGAL_CACHE_BOXES then
      { s1 with
        m_bboxes := s1.m_bboxes ++ [c.Bbox_3]
        m_bboxes_is_invalid :=
          vec_resize s1.m_bboxes_is_invalid (s1.m_bboxes_is_invalid.length + 1) true }
    else s1
  add_cc_points c s2 tm assume_one_CC_per_mesh

/-- Member `remove_mesh`. -/
def remove_mesh (c : Collaborators Mesh Tree Traits Point Aff Bbox Vertex Face)
    (s : Rigid_mesh_collision_detection Mesh Tree Traits Point Aff Bbox)
    (mesh_id : Nat) :
    Option (Rigid_mesh_collision_detection Mesh Tree Traits Point Aff Bbox) :=
  if mesh_id ≥ s.m_triangle_mesh_ptrs.length then some s
  else
    match vec_erase s.m_triangle_mesh_ptrs mesh_id, vec_erase s.m_aabb_trees mesh_id,
      vec_erase s.m_is_closed mesh_id, vec_erase s.m_points_per_cc mesh_id,
      vec_erase s.m_traversal_traits mesh_id with
    | some ptrs, some trees, some closed, some pts, some tts =>
      let s1 : Rigid_mesh_collision_detection Mesh Tree Traits Point Aff Bbox :=
        { s with
          m_triangle_mesh_ptrs := ptrs
          m_aabb_trees := trees
          m_is_closed := closed
          m_points_per_cc := pts
          m_traversal_traits := tts }
      if c.CGAL_CACHE_BOXES then
        match vec_pop_back s1.m_bboxes with
        | none => none
        | some boxes =>
          some { s1 with
            m_bboxes := boxes
            m_bboxes_is_invalid :=
              vec_resize (s1.m_bboxes_is_invalid.map (fun _ => true))
                s1.m_triangle_mesh_ptrs.length false }
      else some s1
    | _, _, _, _, _ => none

/-- Member `set_transformation`. -/
def set_transformation (c : Collaborators Mesh Tree Traits Point Aff Bbox Vertex Face)
    (s : Rigid_mesh_collision_detection Mesh Tree Traits Point Aff Bbox)
    (mesh_id : Nat) (aff_trans : Aff) :
    Option (Rigid_mesh_collision_detection Mesh Tree Traits Point Aff Bbox) :=
  match s.m_traversal_traits[mesh_id]? with
  | none => none
  | some tt =>
    let s1 : Rigid_mesh_collision_detection Mesh Tree Traits Point Aff Bbox :=
      { s with
        m_traversal_traits := s.m_traversal_traits.set mesh_id (tt.set_transformation aff_trans) }
    if c.CGAL_CACHE_BOXES then
      match vec_assign s1.m_bboxes_is_invalid mesh_id true with
      | none => none
      | some bits => some { s1 with m_bboxes_is_invalid := bits }
    else some s1

/-- Body of the loop of `update_bboxes`, run for the positions of the set bits. -/
def update_bboxes_body (c : Collaborators Mesh Tree Traits Point Aff Bbox Vertex Face)
    (s : Rigid_mesh_collision_detection Mesh Tree Traits Point Aff Bbox) (i : Nat) :
    Option (Rigid_mesh_collision_detection Mesh Tree Traits Point Aff Bbox) :=
  match s.m_traversal_traits[i]?, s.m_aabb_trees[i]? with
  | some tt, some t =>
    match vec_assign s.m_bboxes i (c.get_tree_bbox tt t) with
    | none => none
    | some boxes => some { s with m_bboxes := boxes }
  | _, _ => none

/-- Member `update_bboxes` (exists only with `CGAL_CACHE_BOXES`): recompute the
box of every position whose bit is set, in increasing order, then reset all bits. -/
def update_bboxes (c : Collaborators Mesh Tree Traits Point Aff Bbox Vertex Face)
    (s : Rigid_mesh_collision_detection Mesh Tree Traits Point Aff Bbox) :
    Option (Rigid_mesh_collision_detection Mesh Tree Traits Point Aff Bbox) :=
  let invalid := (List.range s.m_bboxes_is_invalid.length).filter
    (fun i => s.m_bboxes_is_invalid.getD i false)
  match BOOST_FOREACH (update_bboxes_body c) s invalid with
  | none => none
  | some s1 =>
    some { s1 with m_bboxes_is_invalid := s1.m_bboxes_is_invalid.map (fun _ => false) }

/-- Guarded statement `if (!do_overlap(m_bboxes[k], m_bboxes[mesh_id])) continue;`
of both queries: `some true` when the candidate goes on to the exact test.
Without `CGAL_CACHE_BOXES` the statement is absent. -/
def passes_box_filter (c : Collaborators Mesh Tree Traits Point Aff Bbox Vertex Face)
    (s : Rigid_mesh_collision_detection Mesh Tree Traits Point Aff Bbox)
    (mesh_id k : Nat) : Option Bool :=
  if c.CGAL_CACHE_BOXES then
    match s.m_bboxes[k]?, s.m_bboxes[mesh_id]? with
    | some bk, some bid => some (c.do_overlap bk bid)
    | _, _ => none
  else some true

/-- Condition `m_aabb_trees[k]->do_intersect( *m_aabb_trees[mesh_id] )` of
`get_all_intersections`: only the two stored trees are read. -/
def trees_do_intersect (c : Collaborators Mesh Tree Traits Point Aff Bbox Vertex Face)
    (s : Rigid_mesh_collision_detection Mesh Tree Traits Point Aff Bbox)
    (k mesh_id : Nat) : Option Bool :=
  match s.m_aabb_trees[k]?, s.m_aabb_trees[mesh_id]? with
  | some tk, some tid => some (c.do_intersect tk tid)
  | _, _ => none

/-- Body of the loop over the candidates in `get_all_intersections`. -/
def get_all_intersections_body (c : Collaborators Mesh Tree Traits Point Aff Bbox Vertex Face)
    (s : Rigid_mesh_collision_detection Mesh Tree Traits Point Aff Bbox)
    (mesh_id : Nat) (res : List Nat) (k : Nat) : Option (List Nat) :=
  if k = mesh_id then some res
  else
    match passes_box_filter c s mesh_id k with
    | none => none
    | some false => some res
    | some true =>
      match trees_do_intersect c s k mesh_id with
      | none => none
      | some true => some (res ++ [k])
      | some false => some res

/-- Member `get_all_intersections(mesh_id, ids)`: the ids found and the object after the call. -/
def get_all_intersections (c : Collaborators Mesh Tree Traits Point Aff Bbox Vertex Face)
    (s : Rigid_mesh_collision_detection Mesh Tree Traits Point Aff Bbox)
    (mesh_id : Nat) (ids : List Nat) :
    Option (List Nat × Rigid_mesh_collision_detection Mesh Tree Traits Point Aff Bbox) :=
  match (if c.CGAL_CACHE_BOXES then update_bboxes c s else some s) with
  | none => none
  | some s1 =>
    match BOOST_FOREACH (get_all_intersections_body c s1 mesh_id) [] ids with
    | none => none
    | some res => some (res, s1)

/-- Member `get_all_intersections(mesh_id)`: every registered mesh is a candidate. -/
def get_all_intersections_all (c : Collaborators Mesh Tree Traits Point Aff Bbox Vertex Face)
    (s : Rigid_mesh_collision_detection Mesh Tree Traits Point Aff Bbox)
    (mesh_id : Nat) :
    Option (List Nat × Rigid_mesh_collision_detection Mesh Tree Traits Point Aff Bbox) :=
  get_all_intersections c s mesh_id (List.range s.m_aabb_trees.length)

/-- Member `set_transformation_and_get_all_intersections`. -/
def set_transformation_and_get_all_intersections
    (c : Collaborators Mesh Tree Traits Point Aff Bbox Vertex Face)
    (s : Rigid_mesh_collision_detection Mesh Tree Traits Point Aff Bbox)
    (mesh_id : Nat) (aff_trans : Aff) :
    Option (List Nat × Rigid_mesh_collision_detection Mesh Tree Traits Point Aff Bbox) :=
  match set_transformation c s mesh_id aff_trans with
  | none => none
  | some s1 => get_all_intersections_all c s1 mesh_id

/-- Loop of `does_A_contains_a_CC_of_B` over the points of `id_B`. -/
def does_A_contains_a_CC_of_B_loop
    (c : Collaborators Mesh Tree Traits Point Aff Bbox Vertex Face)
    (s : Rigid_mesh_collision_detection Mesh Tree Traits Point Aff Bbox)
    (id_A id_B : Nat) : List Point → Option Bool
  | [] => some false
  | q :: qs =>
    match s.m_traversal_traits[id_A]?, s.m_traversal_traits[id_B]?, s.m_aabb_trees[id_A]? with
    | some ttA, some ttB, some tA =>
      if c.Point_inside_vertical_ray_cast ttA (c.transform ttB.transformation q) tA
          = Bounded_side.ON_BOUNDED_SIDE then some true
      else does_A_contains_a_CC_of_B_loop c s id_A id_B qs
    | _, _, _ => none

/-- Member `does_A_contains_a_CC_of_B`. -/
def does_A_contains_a_CC_of_B
    (c : Collaborators Mesh Tree Traits Point Aff Bbox Vertex Face)
    (s : Rigid_mesh_collision_detection Mesh Tree Traits Point Aff Bbox)
    (id_A id_B : Nat) : Option Bool :=
  match s.m_points_per_cc[id_B]? with
  | none => none
  | some pts => does_A_contains_a_CC_of_B_loop c s id_A id_B pts

/-- The `else` branch of the loop body of `get_all_intersections_and_inclusions`:
two successive `if` statements, each leaving the iteration on a hit. -/
def inclusions_branch (c : Collaborators Mesh Tree Traits Point Aff Bbox Vertex Face)
    (s : Rigid_mesh_collision_detection Mesh Tree Traits Point Aff Bbox)
    (mesh_id : Nat) (res : List (Nat × Bool)) (k : Nat) : Option (List (Nat × Bool)) :=
  let second : Option (List (Nat × Bool)) :=
    match s.m_is_closed[k]? with
    | none => none
    | some false => some res
    | some true =>
      match does_A_contains_a_CC_of_B c s k mesh_id with
      | none => none
      | some true => some (res ++ [(k, true)])
      | some false => some res
  match s.m_is_closed[mesh_id]? with
  | none => none
  | some false => second
  | some true =>
    match does_A_contains_a_CC_of_B c s mesh_id k with
    | none => none
    | some true => some (res ++ [(k, true)])
    | some false => second

/-- Traversal of the tree of `k` against the tree of `mesh_id` with
`Do_intersect_traversal_traits_for_two_trees`, built from the traits of the tree
of `k`, the transformation of `k` and the traversal traits of `mesh_id`; the value
is `is_intersection_found()`. -/
def two_trees_intersection_found
    (c : Collaborators Mesh Tree Traits Point Aff Bbox Vertex Face)
    (s : Rigid_mesh_collision_detection Mesh Tree Traits Point Aff Bbox)
    (k mesh_id : Nat) : Option Bool :=
  match s.m_aabb_trees[k]?, s.m_traversal_traits[k]?, s.m_traversal_traits[mesh_id]?,
    s.m_aabb_trees[mesh_id]? with
  | some tk, some ttk, some ttid, some tid =>
    some (c.two_trees_traversal (c.traits tk) ttk.transformation ttid tk tid)
  | _, _, _, _ => none

/-- Body of the loop over the candidates in `get_all_intersections_and_inclusions`. -/
def get_all_intersections_and_inclusions_body
    (c : Collaborators Mesh Tree Traits Point Aff Bbox Vertex Face)
    (s : Rigid_mesh_collision_detection Mesh Tree Traits Point Aff Bbox)
    (mesh_id : Nat) (res : List (Nat × Bool)) (k : Nat) : Option (List (Nat × Bool)) :=
  if k = mesh_id then some res
  else
    match passes_box_filter c s mesh_id k with
    | none => none
    | some false => some res
    | some true =>
      match two_trees_intersection_found c s k mesh_id with
      | none => none
      | some true => some (res ++ [(k, false)])
      | some false => inclusions_branch c s mesh_id res k

/-- Member `get_all_intersections_and_inclusions(mesh_id, ids)`. -/
def get_all_intersections_and_inclusions
    (c : Collaborators Mesh Tree Traits Point Aff Bbox Vertex Face)
    (s : Rigid_mesh_collision_detection Mesh Tree Traits Point Aff Bbox)
    (mesh_id : Nat) (ids : List Nat) :
    Option (List (Nat × Bool) × Rigid_mesh_collision_detection Mesh Tree Traits Point Aff Bbox) :=
  match (if c.CGAL_CACHE_BOXES then update_bboxes c s else some s) with
  | none => none
  | some s1 =>
    match BOOST_FOREACH (get_all_intersections_and_inclusions_body c s1 mesh_id) [] ids with
    | none => none
    | some res => some (res, s1)

/-- Member `get_all_intersections_and_inclusions(mesh_id)`. -/
def get_all_intersections_and_inclusions_all
    (c : Collaborators Mesh Tree Traits Point Aff Bbox Vertex Face)
    (s : Rigid_mesh_collision_detection Mesh Tree Traits Point Aff Bbox)
    (mesh_id : Nat) :
    Option (List (Nat × Bool) × Rigid_mesh_collision_detection Mesh Tree Traits Point Aff Bbox) :=
  get_all_intersections_and_inclusions c s mesh_id (List.range s.m_aabb_trees.length)

/-- Member `set_transformation_and_get_all_intersections_and_inclusions`. -/
def set_transformation_and_get_all_intersections_and_inclusions
    (c : Collaborators Mesh Tree Traits Point Aff Bbox Vertex Face)
    (s : Rigid_mesh_collision_detection Mesh Tree Traits Point Aff Bbox)
    (mesh_id : Nat) (aff_trans : Aff) :
    Option (List (Nat × Bool) × Rigid_mesh_collision_detection Mesh Tree Traits Point Aff Bbox) :=
  match set_transformation c s mesh_id aff_trans with
  | none => none
  | some s1 => get_all_intersections_and_inclusions_all c s1 mesh_id

end Class

/-! ## A one-dimensional instance of the collaborators

Meshes on a line: a shell is a segment `[lo, hi]`, its boundary the two end
points, its interior the points strictly between them.  A transformation is a
translation by a natural number.  The instance is used to run the class on
concrete inputs. -/

namespace Line

/-- A mesh on the line: its shells, and whether it is closed. -/
structure Mesh where
  shells : List (Nat × Nat)
  closed : Bool
  deriving DecidableEq, Repr

/-- Boundary points of a mesh translated by `a`. -/
def boundary (m : Mesh) (a : Nat) : List Nat :=
  m.shells.flatMap (fun sh => [sh.1 + a, sh.2 + a])

/-- Do the boundaries of `m1` translated by `a1` and `m2` translated by `a2` share a point? -/
def boundaries_meet (m1 : Mesh) (a1 : Nat) (m2 : Mesh) (a2 : Nat) : Bool :=
  (boundary m1 a1).any (fun p => (boundary m2 a2).contains p)

/-- Position of the point `p` with respect to `m` translated by `a`. -/
def side (m : Mesh) (a : Nat) (p : Nat) : Bounded_side :=
  if m.shells.any (fun sh => decide (sh.1 + a < p) && decide (p < sh.2 + a)) then
    Bounded_side.ON_BOUNDED_SIDE
  else if (boundary m a).contains p then Bounded_side.ON_BOUNDARY
  else Bounded_side.ON_UNBOUNDED_SIDE

/-- Smallest segment around `m` translated by `a`; `none` is the empty box. -/
def bbox (m : Mesh) (a : Nat) : Option (Nat × Nat) :=
  match boundary m a with
  | [] => none
  | p :: ps => some (ps.foldl min p, ps.foldl max p)

/-- Two boxes overlap when both are non-empty and neither lies beyond the other. -/
def overlap : Option (Nat × Nat) → Option (Nat × Nat) → Bool
  | some b1, some b2 => decide (b1.1 ≤ b2.2) && decide (b2.1 ≤ b1.2)
  | _, _ => false

/-- Collaborators on the line.  Shell `i` has the single face `i` and the
vertices `some (2 * i)` (its `lo` end, target of the halfedge of the face) and
`some (2 * i + 1)`; `none` is the null vertex; every shell is one connected
component. -/
def collaborators (cache : Bool) :
    Collaborators Mesh Mesh Mesh Nat Nat (Option (Nat × Nat)) (Option Nat) Nat :=
  { CGAL_CACHE_BOXES := cache
    is_closed := fun m => m.closed
    new_Tree := fun m => m
    traits := fun t => t
    fresh_transfo := 0
    faces := fun m => List.range m.shells.length
    face_index := fun _ f => f
    connected_components := fun m => m.shells.length
    null_vertex := none
    vertices := fun m => (List.range (2 * m.shells.length)).map some
    vertex_point := fun m v =>
      match v with
      | none => 0
      | some j => if j % 2 = 0 then (m.shells.getD (j / 2) (0, 0)).1
                  else (m.shells.getD (j / 2) (0, 0)).2
    target_halfedge := fun _ f => some (2 * f)
    transform := fun a p => p + a
    Point_inside_vertical_ray_cast := fun tt p t => side t tt.m_transfo p
    two_trees_traversal := fun _ ak ttid tk tid => boundaries_meet tk ak tid ttid.m_transfo
    do_intersect := fun tk tid => boundaries_meet tk 0 tid 0
    get_tree_bbox := fun tt t => bbox t tt.m_transfo
    do_overlap := overlap
    Bbox_3 := none }

/-- A closed segment from 0 to 2. -/
def touching_left : Mesh := ⟨[(0, 2)], true⟩

/-- A closed segment from 2 to 4: its boundary shares the point 2 with `touching_left`. -/
def touching_right : Mesh := ⟨[(2, 4)], true⟩

/-- A closed mesh made of two disjoint shells. -/
def two_shells : Mesh := ⟨[(0, 2), (5, 6)], true⟩

/-- A closed segment from 0 to 10. -/
def outer : Mesh := ⟨[(0, 10)], true⟩

/-- A closed segment from 4 to 5, strictly inside `outer`. -/
def inner : Mesh := ⟨[(4, 5)], true⟩

/-- Registry type of the instance. -/
abbrev Registry : Type :=
  Rigid_mesh_collision_detection Mesh Mesh Mesh Nat Nat (Option (Nat × Nat))

/-- The registry built from `touching_left` and `touching_right`. -/
def touching (cache : Bool) : Option Registry :=
  construct (collaborators cache) [touching_left, touching_right] false

/-- The registry `touching` after `set_transformation(1, 100)`: the second mesh is moved
far to the right of the first. -/
def moved_apart (cache : Bool) : Option Registry :=
  (touching cache).bind (fun s => set_transformation (collaborators cache) s 1 100)

/-- The registry built from `outer` and `inner`. -/
def nested (cache : Bool) : Option Registry :=
  construct (collaborators cache) [outer, inner] false

end Line

/-! ## Consistent registries and closed forms: definitions -/

section Consistency

variable {Mesh Tree Traits Point Aff Bbox Vertex Face : Type}

/-- Number of registered meshes, the quantity `remove_mesh` compares an id with. -/
def number_of_meshes (s : Rigid_mesh_collision_detection Mesh Tree Traits Point Aff Bbox) : Nat :=
  s.m_triangle_mesh_ptrs.length

/-- Box of the tree of mesh `i` under its current transformation, as `update_bboxes`
computes it. -/
def world_bbox (c : Collaborators Mesh Tree Traits Point Aff Bbox Vertex Face)
    (s : Rigid_mesh_collision_detection Mesh Tree Traits Point Aff Bbox) (i : Nat) :
    Option Bbox :=
  match s.m_traversal_traits[i]?, s.m_aabb_trees[i]? with
  | some tt, some t => some (c.get_tree_bbox tt t)
  | _, _ => none

/-- The per-mesh vectors have one entry per mesh (the vector of traversal traits
at least one), and with the cache a box whose bit is clear is the box of the
tree under the current transformation. -/
structure Consistent (c : Collaborators Mesh Tree Traits Point Aff Bbox Vertex Face)
    (s : Rigid_mesh_collision_detection Mesh Tree Traits Point Aff Bbox) : Prop where
  trees_length : s.m_aabb_trees.length = number_of_meshes s
  closed_length : s.m_is_closed.length = number_of_meshes s
  points_length : s.m_points_per_cc.length = number_of_meshes s
  traits_length : number_of_meshes s ≤ s.m_traversal_traits.length
  boxes_length : c.CGAL_CACHE_BOXES = true → s.m_bboxes.length = number_of_meshes s
  bits_length : c.CGAL_CACHE_BOXES = true → s.m_bboxes_is_invalid.length = number_of_meshes s
  valid_box : c.CGAL_CACHE_BOXES = true → ∀ i, s.m_bboxes_is_invalid[i]? = some false →
    s.m_bboxes[i]? = world_bbox c s i

/-- One assignment of the loop of `update_bboxes`, on the vector of boxes alone. -/
def refresh_box (c : Collaborators Mesh Tree Traits Point Aff Bbox Vertex Face)
    (tts : List (Traversal_traits Traits Aff)) (trees : List Tree)
    (boxes : List Bbox) (i : Nat) : List Bbox :=
  match tts[i]?, trees[i]? with
  | some tt, some t => boxes.set i (c.get_tree_bbox tt t)
  | _, _ => boxes

/-- Positions whose bit is set, in increasing order. -/
def invalid_positions (bits : List Bool) : List Nat :=
  (List.range bits.length).filter (fun i => bits.getD i false)

/-- The registry `update_bboxes` leaves behind when no access is out of bounds. -/
def refreshed (c : Collaborators Mesh Tree Traits Point Aff Bbox Vertex Face)
    (s : Rigid_mesh_collision_detection Mesh Tree Traits Point Aff Bbox) :
    Rigid_mesh_collision_detection Mesh Tree Traits Point Aff Bbox :=
  { s with
    m_bboxes := (invalid_positions s.m_bboxes_is_invalid).foldl
      (refresh_box c s.m_traversal_traits s.m_aabb_trees) s.m_bboxes
    m_bboxes_is_invalid := s.m_bboxes_is_invalid.map (fun _ => false) }

/-- The registry a query works on: refreshed with the cache, untouched without. -/
def after_update (c : Collaborators Mesh Tree Traits Point Aff Bbox Vertex Face)
    (s : Rigid_mesh_collision_detection Mesh Tree Traits Point Aff Bbox) :
    Rigid_mesh_collision_detection Mesh Tree Traits Point Aff Bbox :=
  if c.CGAL_CACHE_BOXES then refreshed c s else s

/-- Do the boxes of `k` and `mesh_id`, recomputed from the current transformations, overlap? -/
def boxes_overlap (c : Collaborators Mesh Tree Traits Point Aff Bbox Vertex Face)
    (s : Rigid_mesh_collision_detection Mesh Tree Traits Point Aff Bbox)
    (mesh_id k : Nat) : Bool :=
  match world_bbox c s k, world_bbox c s mesh_id with
  | some bk, some bid => c.do_overlap bk bid
  | _, _ => false

/-- The box filter of a query: absent without the cache, the overlap of the
recomputed boxes with it. -/
def box_filter (c : Collaborators Mesh Tree Traits Point Aff Bbox Vertex Face)
    (s : Rigid_mesh_collision_detection Mesh Tree Traits Point Aff Bbox)
    (mesh_id k : Nat) : Bool :=
  !c.CGAL_CACHE_BOXES || boxes_overlap c s mesh_id k

/-- Is the point `q` of mesh `id_B`, moved by the transformation of `id_B`, located
on the bounded side of the tree of `id_A`? -/
def on_bounded_side (c : Collaborators Mesh Tree Traits Point Aff Bbox Vertex Face)
    (s : Rigid_mesh_collision_detection Mesh Tree Traits Point Aff Bbox)
    (id_A id_B : Nat) (q : Point) : Bool :=
  match s.m_traversal_traits[id_A]?, s.m_traversal_traits[id_B]?, s.m_aabb_trees[id_A]? with
  | some ttA, some ttB, some tA =>
    decide (c.Point_inside_vertical_ray_cast ttA (c.transform ttB.transformation q) tA
      = Bounded_side.ON_BOUNDED_SIDE)
  | _, _, _ => false

/-- The points stored for mesh `i` (none when `i` is not registered). -/
def points_of (s : Rigid_mesh_collision_detection Mesh Tree Traits Point Aff Bbox) (i : Nat) :
    List Point :=
  (s.m_points_per_cc[i]?).getD []

/-- Closedness flag stored for mesh `i` (false when `i` is not registered). -/
def closed_flag (s : Rigid_mesh_collision_detection Mesh Tree Traits Point Aff Bbox) (i : Nat) :
    Bool :=
  (s.m_is_closed[i]?).getD false

/-- The test made by `does_A_contains_a_CC_of_B`: some stored point of `id_B` is located on
the bounded side of `id_A`. -/
def contains_a_point_of (c : Collaborators Mesh Tree Traits Point Aff Bbox Vertex Face)
    (s : Rigid_mesh_collision_detection Mesh Tree Traits Point Aff Bbox)
    (id_A id_B : Nat) : Bool :=
  (points_of s id_B).any (on_bounded_side c s id_A id_B)

/-- Is the candidate `k` kept by `get_all_intersections(mesh_id, ...)`?  It differs from
`mesh_id`, passes the box filter, and `do_intersect` holds of the two stored trees. -/
def intersection_kept (c : Collaborators Mesh Tree Traits Point Aff Bbox Vertex Face)
    (s : Rigid_mesh_collision_detection Mesh Tree Traits Point Aff Bbox)
    (mesh_id k : Nat) : Bool :=
  decide (k ≠ mesh_id) && (box_filter c s mesh_id k
    && (trees_do_intersect c s k mesh_id == some true))

/-- What the two `if` statements after a failed traversal append for the candidate `k`. -/
def inclusion_entries (c : Collaborators Mesh Tree Traits Point Aff Bbox Vertex Face)
    (s : Rigid_mesh_collision_detection Mesh Tree Traits Point Aff Bbox)
    (mesh_id k : Nat) : List (Nat × Bool) :=
  if closed_flag s mesh_id && contains_a_point_of c s mesh_id k then [(k, true)]
  else if closed_flag s k && contains_a_point_of c s k mesh_id then [(k, true)]
  else []

/-- What `get_all_intersections_and_inclusions(mesh_id, ...)` appends for the candidate `k`. -/
def candidate_entries (c : Collaborators Mesh Tree Traits Point Aff Bbox Vertex Face)
    (s : Rigid_mesh_collision_detection Mesh Tree Traits Point Aff Bbox)
    (mesh_id k : Nat) : List (Nat × Bool) :=
  if k = mesh_id then []
  else if box_filter c s mesh_id k = false then []
  else if two_trees_intersection_found c s k mesh_id = some true then [(k, false)]
  else inclusion_entries c s mesh_id k

/-- Executable check of `Consistent`. -/
def consistent_check (c : Collaborators Mesh Tree Traits Point Aff Bbox Vertex Face)
    [DecidableEq Bbox]
    (s : Rigid_mesh_collision_detection Mesh Tree Traits Point Aff Bbox) : Bool :=
  decide (s.m_aabb_trees.length = number_of_meshes s)
  && decide (s.m_is_closed.length = number_of_meshes s)
  && decide (s.m_points_per_cc.length = number_of_meshes s)
  && decide (number_of_meshes s ≤ s.m_traversal_traits.length)
  && (!c.CGAL_CACHE_BOXES
      || (decide (s.m_bboxes.length = number_of_meshes s)
          && decide (s.m_bboxes_is_invalid.length = number_of_meshes s)
          && (List.range s.m_bboxes_is_invalid.length).all (fun i =>
                s.m_bboxes_is_invalid.getD i true
                || decide (s.m_bboxes[i]? = world_bbox c s i))))

/-- Renumbering after the removal of mesh `k`: an id above `k` goes down by one. -/
def renumber (k j : Nat) : Nat :=
  if k < j then j - 1 else j

/-- The registry `remove_mesh(k)` leaves behind when `k` is in range and no access is
out of bounds. -/
def removed (c : Collaborators Mesh Tree Traits Point Aff Bbox Vertex Face)
    (s : Rigid_mesh_collision_detection Mesh Tree Traits Point Aff Bbox) (k : Nat) :
    Rigid_mesh_collision_detection Mesh Tree Traits Point Aff Bbox :=
  { m_triangle_mesh_ptrs := s.m_triangle_mesh_ptrs.eraseIdx k
    m_aabb_trees := s.m_aabb_trees.eraseIdx k
    m_is_closed := s.m_is_closed.eraseIdx k
    m_points_per_cc := s.m_points_per_cc.eraseIdx k
    m_traversal_traits := s.m_traversal_traits.eraseIdx k
    m_bboxes := if c.CGAL_CACHE_BOXES then s.m_bboxes.dropLast else s.m_bboxes
    m_bboxes_is_invalid :=
      if c.CGAL_CACHE_BOXES then
        vec_resize (s.m_bboxes_is_invalid.map (fun _ => true))
          (s.m_triangle_mesh_ptrs.eraseIdx k).length false
      else s.m_bboxes_is_invalid }

/-- Registries reachable from the constructor by the public member functions, each call
returning without an access out of bounds. -/
inductive Reachable (c : Collaborators Mesh Tree Traits Point Aff Bbox Vertex Face)
    [DecidableEq Vertex] :
    Rigid_mesh_collision_detection Mesh Tree Traits Point Aff Bbox → Prop where
  | construct (triangle_meshes : List Mesh) (assume_one_CC : Bool)
      (s : Rigid_mesh_collision_detection Mesh Tree Traits Point Aff Bbox) :
      construct c triangle_meshes assume_one_CC = some s → Reachable c s
  | init (s s1 : Rigid_mesh_collision_detection Mesh Tree Traits Point Aff Bbox)
      (triangle_meshes : List Mesh) (assume_one_CC : Bool) :
      Reachable c s → init c s triangle_meshes assume_one_CC = some s1 → Reachable c s1
  | add_mesh (s s1 : Rigid_mesh_collision_detection Mesh Tree Traits Point Aff Bbox)
      (tm : Mesh) (assume_one_CC : Bool) :
      Reachable c s → add_mesh c s tm assume_one_CC = some s1 → Reachable c s1
  | remove_mesh (s s1 : Rigid_mesh_collision_detection Mesh Tree Traits Point Aff Bbox)
      (mesh_id : Nat) :
      Reachable c s → remove_mesh c s mesh_id = some s1 → Reachable c s1
  | set_transformation
      (s s1 : Rigid_mesh_collision_detection Mesh Tree Traits Point Aff Bbox)
      (mesh_id : Nat) (aff_trans : Aff) :
      Reachable c s → set_transformation c s mesh_id aff_trans = some s1 → Reachable c s1
  | update_bboxes (s s1 : Rigid_mesh_collision_detection Mesh Tree Traits Point Aff Bbox) :
      Reachable c s → c.CGAL_CACHE_BOXES = true → update_bboxes c s = some s1 →
      Reachable c s1
  | get_all_intersections
      (s s1 : Rigid_mesh_collision_detection Mesh Tree Traits Point Aff Bbox)
      (mesh_id : Nat) (ids res : List Nat) :
      Reachable c s → get_all_intersections c s mesh_id ids = some (res, s1) →
      Reachable c s1
  | get_all_intersections_and_inclusions
      (s s1 : Rigid_mesh_collision_detection Mesh Tree Traits Point Aff Bbox)
      (mesh_id : Nat) (ids : List Nat) (res : List (Nat × Bool)) :
      Reachable c s → get_all_intersections_and_inclusions c s mesh_id ids = some (res, s1) →
      Reachable c s1

/-- The registry built with the cache from `outer` and `inner`, written out. -/
def Line.nested_registry : Line.Registry :=
  { m_triangle_mesh_ptrs := [Line.outer, Line.inner]
    m_aabb_trees := [Line.outer, Line.inner]
    m_is_closed := [true, true]
    m_points_per_cc := [[0], [4]]
    m_traversal_traits := [⟨Line.outer, 0⟩, ⟨Line.inner, 0⟩]
    m_bboxes_is_invalid := [true, true]
    m_bboxes := [none, none] }

/-- The registry built with the cache from `outer`, `touching_left` and `inner`, after a
query has refreshed the boxes; written out. -/
def Line.three_registry : Line.Registry :=
  { m_triangle_mesh_ptrs := [Line.outer, Line.touching_left, Line.inner]
    m_aabb_trees := [Line.outer, Line.touching_left, Line.inner]
    m_is_closed := [true, true, true]
    m_points_per_cc := [[0], [0], [4]]
    m_traversal_traits := [⟨Line.outer, 0⟩, ⟨Line.touching_left, 0⟩, ⟨Line.inner, 0⟩]
    m_bboxes_is_invalid := [false, false, false]
    m_bboxes := [some (0, 10), some (0, 2), some (4, 5)] }

/-- The collaborators `c` compiled with `CGAL_CACHE_BOXES` set to `b`. -/
def with_cache (c : Collaborators Mesh Tree Traits Point Aff Bbox Vertex Face) (b : Bool) :
    Collaborators Mesh Tree Traits Point Aff Bbox Vertex Face :=
  { c with CGAL_CACHE_BOXES := b }

/-- The registry built with the cache from `outer`, `touching_left` and `inner`, before
any query: every bit is set and every box is the default one; written out. -/
def Line.three_registry_fresh : Line.Registry :=
  { m_triangle_mesh_ptrs := [Line.outer, Line.touching_left, Line.inner]
    m_aabb_trees := [Line.outer, Line.touching_left, Line.inner]
    m_is_closed := [true, true, true]
    m_points_per_cc := [[0], [0], [4]]
    m_traversal_traits := [⟨Line.outer, 0⟩, ⟨Line.touching_left, 0⟩, ⟨Line.inner, 0⟩]
    m_bboxes_is_invalid := [true, true, true]
    m_bboxes := [none, none, none] }

/-- A closed mesh made of three disjoint shells, listed in the order 20, 4, 30. -/
def Line.scattered : Line.Mesh := ⟨[(20, 21), (4, 5), (30, 31)], true⟩

/-- A registry of `outer`, moved by 3, and `scattered`, moved by 2, holding one stored
point per shell of `scattered`: after the moves only the middle point, 4 + 2, lies
strictly inside `outer`, which spans 3 to 13. -/
def Line.partial_registry : Line.Registry :=
  { m_triangle_mesh_ptrs := [Line.outer, Line.scattered]
    m_aabb_trees := [Line.outer, Line.scattered]
    m_is_closed := [true, true]
    m_points_per_cc := [[0], [20, 4, 30]]
    m_traversal_traits := [⟨Line.outer, 3⟩, ⟨Line.scattered, 2⟩]
    m_bboxes_is_invalid := [true, true]
    m_bboxes := [none, none] }

end Consistency

/-! ## Lemmas on the box cache and on the two queries -/

section Lemmas

variable {Mesh Tree Traits Point Aff Bbox Vertex Face : Type}

theorem update_bboxes_loop (c : Collaborators Mesh Tree Traits Point Aff Bbox Vertex Face)
    (l : List Nat) :
    ∀ s : Rigid_mesh_collision_detection Mesh Tree Traits Point Aff Bbox,
      (∀ i ∈ l, i < s.m_bboxes.length ∧ i < s.m_traversal_traits.length
        ∧ i < s.m_aabb_trees.length) →
      BOOST_FOREACH (update_bboxes_body c) s l
        = some { s with
            m_bboxes := List.foldl (refresh_box c s.m_traversal_traits s.m_aabb_trees)
              s.m_bboxes l } := by
  induction l with
  | nil => intro s _; rfl
  | cons i l ih =>
    intro s h
    obtain ⟨hb, ht, hr⟩ := h i (List.mem_cons_self _ _)
    have e1 : s.m_traversal_traits[i]? = some (s.m_traversal_traits[i]) :=
      List.getElem?_eq_getElem ht
    have e2 : s.m_aabb_trees[i]? = some (s.m_aabb_trees[i]) := List.getElem?_eq_getElem hr
    have hbody : update_bboxes_body c s i
        = some { s with m_bboxes :=
            s.m_bboxes.set i (c.get_tree_bbox s.m_traversal_traits[i] s.m_aabb_trees[i]) } := by
      simp [update_bboxes_body, e1, e2, vec_assign, hb]
    rw [BOOST_FOREACH, hbody]
    simp only
    rw [ih]
    · simp [List.foldl_cons, refresh_box, e1, e2]
    · intro j hj
      have := h j (List.mem_cons_of_mem _ hj)
      simpa using this

theorem foldl_refresh_box_length (c : Collaborators Mesh Tree Traits Point Aff Bbox Vertex Face)
    (tts : List (Traversal_traits Traits Aff)) (trees : List Tree) (l : List Nat) :
    ∀ boxes : List Bbox, (l.foldl (refresh_box c tts trees) boxes).length = boxes.length := by
  induction l with
  | nil => intro boxes; rfl
  | cons i l ih =>
    intro boxes
    rw [List.foldl_cons, ih]
    unfold refresh_box
    split <;> simp

theorem foldl_refresh_box_getElem? (c : Collaborators Mesh Tree Traits Point Aff Bbox Vertex Face)
    (tts : List (Traversal_traits Traits Aff)) (trees : List Tree) (l : List Nat) (j : Nat)
    (tt : Traversal_traits Traits Aff) (t : Tree)
    (htt : tts[j]? = some tt) (ht : trees[j]? = some t) :
    ∀ boxes : List Bbox, j < boxes.length →
      (l.foldl (refresh_box c tts trees) boxes)[j]?
        = if j ∈ l then some (c.get_tree_bbox tt t) else boxes[j]? := by
  induction l with
  | nil => intro boxes _; simp
  | cons i l ih =>
    intro boxes hj
    rw [List.foldl_cons]
    have hlen : (refresh_box c tts trees boxes i).length = boxes.length := by
      unfold refresh_box
      split <;> simp
    rw [ih _ (by rw [hlen]; exact hj)]
    by_cases hjl : j ∈ l
    · simp [hjl]
    · by_cases hji : j = i
      · subst hji
        simp [hjl, refresh_box, htt, ht, List.getElem?_set, hj]
      · have hij : ¬ i = j := fun h => hji h.symm
        simp only [hjl, if_false, List.mem_cons, hji, or_self]
        unfold refresh_box
        split
        · simp [List.getElem?_set, hij]
        · rfl

theorem mem_invalid_positions (bits : List Bool) (i : Nat) :
    i ∈ invalid_positions bits ↔ bits[i]? = some true := by
  unfold invalid_positions
  rw [List.mem_filter, List.mem_range]
  constructor
  · rintro ⟨hi, hb⟩
    rw [List.getD_eq_getElem?_getD, List.getElem?_eq_getElem hi] at hb
    rw [List.getElem?_eq_getElem hi]
    simpa using hb
  · intro h
    have hi : i < bits.length := by
      by_contra hn
      rw [List.getElem?_eq_none (Nat.le_of_not_lt hn)] at h
      cases h
    refine ⟨hi, ?_⟩
    rw [List.getD_eq_getElem?_getD, h]
    rfl

theorem world_bbox_isSome (c : Collaborators Mesh Tree Traits Point Aff Bbox Vertex Face)
    (s : Rigid_mesh_collision_detection Mesh Tree Traits Point Aff Bbox)
    (h : Consistent c s) (i : Nat) (hi : i < number_of_meshes s) :
    world_bbox c s i
      = some (c.get_tree_bbox
          (s.m_traversal_traits.get ⟨i, Nat.lt_of_lt_of_le hi h.traits_length⟩)
          (s.m_aabb_trees.get ⟨i, h.trees_length ▸ hi⟩)) := by
  have ht : i < s.m_traversal_traits.length := Nat.lt_of_lt_of_le hi h.traits_length
  have hr : i < s.m_aabb_trees.length := h.trees_length ▸ hi
  simp [world_bbox, List.getElem?_eq_getElem ht, List.getElem?_eq_getElem hr]

theorem update_bboxes_eq (c : Collaborators Mesh Tree Traits Point Aff Bbox Vertex Face)
    (s : Rigid_mesh_collision_detection Mesh Tree Traits Point Aff Bbox)
    (h : Consistent c s) (hc : c.CGAL_CACHE_BOXES = true) :
    update_bboxes c s = some (refreshed c s) := by
  have hloop := update_bboxes_loop c (invalid_positions s.m_bboxes_is_invalid) s (by
    intro i hi
    have hi2 : i < s.m_bboxes_is_invalid.length := by
      unfold invalid_positions at hi
      rw [List.mem_filter, List.mem_range] at hi
      exact hi.1
    rw [h.bits_length hc] at hi2
    refine ⟨?_, Nat.lt_of_lt_of_le hi2 h.traits_length, ?_⟩
    · rw [h.boxes_length hc]; exact hi2
    · rw [h.trees_length]; exact hi2)
  unfold update_bboxes
  unfold invalid_positions at hloop
  simp only [hloop]
  rfl

theorem refreshed_box (c : Collaborators Mesh Tree Traits Point Aff Bbox Vertex Face)
    (s : Rigid_mesh_collision_detection Mesh Tree Traits Point Aff Bbox)
    (h : Consistent c s) (hc : c.CGAL_CACHE_BOXES = true)
    (i : Nat) (hi : i < number_of_meshes s) :
    (refreshed c s).m_bboxes[i]? = world_bbox c s i := by
  have ht : i < s.m_traversal_traits.length := Nat.lt_of_lt_of_le hi h.traits_length
  have hr : i < s.m_aabb_trees.length := h.trees_length ▸ hi
  have hb : i < s.m_bboxes.length := by rw [h.boxes_length hc]; exact hi
  have hbit : i < s.m_bboxes_is_invalid.length := by rw [h.bits_length hc]; exact hi
  have key := foldl_refresh_box_getElem? c s.m_traversal_traits s.m_aabb_trees
    (invalid_positions s.m_bboxes_is_invalid) i _ _
    (List.getElem?_eq_getElem ht) (List.getElem?_eq_getElem hr) s.m_bboxes hb
  show (List.foldl _ _ _)[i]? = _
  rw [key]
  have hw : world_bbox c s i
      = some (c.get_tree_bbox s.m_traversal_traits[i] s.m_aabb_trees[i]) := by
    simp [world_bbox, List.getElem?_eq_getElem ht, List.getElem?_eq_getElem hr]
  by_cases hm : i ∈ invalid_positions s.m_bboxes_is_invalid
  · rw [if_pos hm, hw]
  · rw [if_neg hm]
    apply h.valid_box hc
    rw [mem_invalid_positions] at hm
    rw [List.getElem?_eq_getElem hbit] at hm ⊢
    cases hv : s.m_bboxes_is_invalid[i]
    · rfl
    · rw [hv] at hm; exact absurd rfl hm

theorem refreshed_consistent (c : Collaborators Mesh Tree Traits Point Aff Bbox Vertex Face)
    (s : Rigid_mesh_collision_detection Mesh Tree Traits Point Aff Bbox)
    (h : Consistent c s) (hc : c.CGAL_CACHE_BOXES = true) :
    Consistent c (refreshed c s) := by
  refine ⟨h.trees_length, h.closed_length, h.points_length, h.traits_length, ?_, ?_, ?_⟩
  · intro _
    show List.length (List.foldl _ _ _) = _
    rw [foldl_refresh_box_length]
    exact h.boxes_length hc
  · intro _
    show List.length (List.map _ _) = _
    rw [List.length_map]
    exact h.bits_length hc
  · intro _ i hi
    have hlt : i < number_of_meshes s := by
      by_contra hn
      have hlen : (refreshed c s).m_bboxes_is_invalid.length ≤ i := by
        show List.length (List.map _ _) ≤ i
        rw [List.length_map, h.bits_length hc]
        exact Nat.le_of_not_lt hn
      rw [List.getElem?_eq_none hlen] at hi
      cases hi
    exact refreshed_box c s h hc i hlt

theorem after_update_eq (c : Collaborators Mesh Tree Traits Point Aff Bbox Vertex Face)
    (s : Rigid_mesh_collision_detection Mesh Tree Traits Point Aff Bbox)
    (h : Consistent c s) :
    (if c.CGAL_CACHE_BOXES then update_bboxes c s else some s) = some (after_update c s) := by
  unfold after_update
  by_cases hc : c.CGAL_CACHE_BOXES = true
  · simp [hc, update_bboxes_eq c s h hc]
  · simp [hc]

theorem after_update_consistent (c : Collaborators Mesh Tree Traits Point Aff Bbox Vertex Face)
    (s : Rigid_mesh_collision_detection Mesh Tree Traits Point Aff Bbox)
    (h : Consistent c s) : Consistent c (after_update c s) := by
  unfold after_update
  by_cases hc : c.CGAL_CACHE_BOXES = true
  · simp only [hc, if_true]; exact refreshed_consistent c s h hc
  · simp only [hc]; exact h

theorem after_update_trees (c : Collaborators Mesh Tree Traits Point Aff Bbox Vertex Face)
    (s : Rigid_mesh_collision_detection Mesh Tree Traits Point Aff Bbox) :
    (after_update c s).m_aabb_trees = s.m_aabb_trees := by
  unfold after_update; split <;> rfl

theorem after_update_traits (c : Collaborators Mesh Tree Traits Point Aff Bbox Vertex Face)
    (s : Rigid_mesh_collision_detection Mesh Tree Traits Point Aff Bbox) :
    (after_update c s).m_traversal_traits = s.m_traversal_traits := by
  unfold after_update; split <;> rfl

theorem after_update_closed (c : Collaborators Mesh Tree Traits Point Aff Bbox Vertex Face)
    (s : Rigid_mesh_collision_detection Mesh Tree Traits Point Aff Bbox) :
    (after_update c s).m_is_closed = s.m_is_closed := by
  unfold after_update; split <;> rfl

theorem after_update_points (c : Collaborators Mesh Tree Traits Point Aff Bbox Vertex Face)
    (s : Rigid_mesh_collision_detection Mesh Tree Traits Point Aff Bbox) :
    (after_update c s).m_points_per_cc = s.m_points_per_cc := by
  unfold after_update; split <;> rfl

theorem after_update_meshes (c : Collaborators Mesh Tree Traits Point Aff Bbox Vertex Face)
    (s : Rigid_mesh_collision_detection Mesh Tree Traits Point Aff Bbox) :
    (after_update c s).m_triangle_mesh_ptrs = s.m_triangle_mesh_ptrs := by
  unfold after_update; split <;> rfl

theorem BOOST_FOREACH_append {α β : Type} (body : List β → α → Option (List β))
    (emit : α → List β) (ids : List α)
    (h : ∀ k ∈ ids, ∀ res, body res k = some (res ++ emit k)) :
    ∀ res, BOOST_FOREACH body res ids = some (res ++ ids.flatMap emit) := by
  induction ids with
  | nil => intro res; simp [BOOST_FOREACH]
  | cons k ids ih =>
    intro res
    rw [BOOST_FOREACH, h k (List.mem_cons_self _ _) res]
    simp only
    rw [ih (fun j hj => h j (List.mem_cons_of_mem _ hj))]
    simp [List.flatMap_cons, List.append_assoc]

theorem passes_box_filter_after_update
    (c : Collaborators Mesh Tree Traits Point Aff Bbox Vertex Face)
    (s : Rigid_mesh_collision_detection Mesh Tree Traits Point Aff Bbox)
    (h : Consistent c s) (mesh_id k : Nat)
    (hid : mesh_id < number_of_meshes s) (hk : k < number_of_meshes s) :
    passes_box_filter c (after_update c s) mesh_id k = some (box_filter c s mesh_id k) := by
  unfold passes_box_filter box_filter
  by_cases hc : c.CGAL_CACHE_BOXES = true
  · have e : after_update c s = refreshed c s := by simp [after_update, hc]
    rw [e, refreshed_box c s h hc k hk, refreshed_box c s h hc mesh_id hid]
    rw [world_bbox_isSome c s h k hk, world_bbox_isSome c s h mesh_id hid]
    simp [hc, boxes_overlap, world_bbox_isSome c s h k hk, world_bbox_isSome c s h mesh_id hid]
  · simp [hc]

theorem trees_do_intersect_after_update
    (c : Collaborators Mesh Tree Traits Point Aff Bbox Vertex Face)
    (s : Rigid_mesh_collision_detection Mesh Tree Traits Point Aff Bbox) (k mesh_id : Nat) :
    trees_do_intersect c (after_update c s) k mesh_id = trees_do_intersect c s k mesh_id := by
  simp only [trees_do_intersect, after_update_trees]

theorem two_trees_intersection_found_after_update
    (c : Collaborators Mesh Tree Traits Point Aff Bbox Vertex Face)
    (s : Rigid_mesh_collision_detection Mesh Tree Traits Point Aff Bbox) (k mesh_id : Nat) :
    two_trees_intersection_found c (after_update c s) k mesh_id
      = two_trees_intersection_found c s k mesh_id := by
  simp only [two_trees_intersection_found, after_update_trees, after_update_traits]

theorem does_A_contains_a_CC_of_B_loop_congr
    (c : Collaborators Mesh Tree Traits Point Aff Bbox Vertex Face)
    (s s1 : Rigid_mesh_collision_detection Mesh Tree Traits Point Aff Bbox)
    (ht : s1.m_aabb_trees = s.m_aabb_trees)
    (htt : s1.m_traversal_traits = s.m_traversal_traits) (id_A id_B : Nat)
    (pts : List Point) :
    does_A_contains_a_CC_of_B_loop c s1 id_A id_B pts
      = does_A_contains_a_CC_of_B_loop c s id_A id_B pts := by
  induction pts with
  | nil => rfl
  | cons q qs ih => simp only [does_A_contains_a_CC_of_B_loop, ht, htt, ih]

theorem does_A_contains_a_CC_of_B_after_update
    (c : Collaborators Mesh Tree Traits Point Aff Bbox Vertex Face)
    (s : Rigid_mesh_collision_detection Mesh Tree Traits Point Aff Bbox) (id_A id_B : Nat) :
    does_A_contains_a_CC_of_B c (after_update c s) id_A id_B
      = does_A_contains_a_CC_of_B c s id_A id_B := by
  simp only [does_A_contains_a_CC_of_B, after_update_points,
    does_A_contains_a_CC_of_B_loop_congr c s (after_update c s) (after_update_trees c s)
      (after_update_traits c s)]

theorem trees_do_intersect_isSome
    (c : Collaborators Mesh Tree Traits Point Aff Bbox Vertex Face)
    (s : Rigid_mesh_collision_detection Mesh Tree Traits Point Aff Bbox)
    (h : Consistent c s) (k mesh_id : Nat)
    (hk : k < number_of_meshes s) (hid : mesh_id < number_of_meshes s) :
    ∃ b, trees_do_intersect c s k mesh_id = some b := by
  have h1 : k < s.m_aabb_trees.length := h.trees_length ▸ hk
  have h2 : mesh_id < s.m_aabb_trees.length := h.trees_length ▸ hid
  refine ⟨c.do_intersect s.m_aabb_trees[k] s.m_aabb_trees[mesh_id], ?_⟩
  simp [trees_do_intersect, List.getElem?_eq_getElem h1, List.getElem?_eq_getElem h2]

theorem two_trees_intersection_found_isSome
    (c : Collaborators Mesh Tree Traits Point Aff Bbox Vertex Face)
    (s : Rigid_mesh_collision_detection Mesh Tree Traits Point Aff Bbox)
    (h : Consistent c s) (k mesh_id : Nat)
    (hk : k < number_of_meshes s) (hid : mesh_id < number_of_meshes s) :
    ∃ b, two_trees_intersection_found c s k mesh_id = some b := by
  have h1 : k < s.m_aabb_trees.length := h.trees_length ▸ hk
  have h2 : mesh_id < s.m_aabb_trees.length := h.trees_length ▸ hid
  have h3 : k < s.m_traversal_traits.length := Nat.lt_of_lt_of_le hk h.traits_length
  have h4 : mesh_id < s.m_traversal_traits.length := Nat.lt_of_lt_of_le hid h.traits_length
  refine ⟨c.two_trees_traversal (c.traits s.m_aabb_trees[k])
    s.m_traversal_traits[k].transformation s.m_traversal_traits[mesh_id]
    s.m_aabb_trees[k] s.m_aabb_trees[mesh_id], ?_⟩
  simp [two_trees_intersection_found, List.getElem?_eq_getElem h1,
    List.getElem?_eq_getElem h2, List.getElem?_eq_getElem h3, List.getElem?_eq_getElem h4]

theorem does_A_contains_a_CC_of_B_loop_eq
    (c : Collaborators Mesh Tree Traits Point Aff Bbox Vertex Face)
    (s : Rigid_mesh_collision_detection Mesh Tree Traits Point Aff Bbox)
    (h : Consistent c s) (id_A id_B : Nat)
    (hA : id_A < number_of_meshes s) (hB : id_B < number_of_meshes s) (pts : List Point) :
    does_A_contains_a_CC_of_B_loop c s id_A id_B pts
      = some (pts.any (on_bounded_side c s id_A id_B)) := by
  have h1 : id_A < s.m_aabb_trees.length := h.trees_length ▸ hA
  have h3 : id_A < s.m_traversal_traits.length := Nat.lt_of_lt_of_le hA h.traits_length
  have h4 : id_B < s.m_traversal_traits.length := Nat.lt_of_lt_of_le hB h.traits_length
  induction pts with
  | nil => rfl
  | cons q qs ih =>
    simp only [does_A_contains_a_CC_of_B_loop, List.getElem?_eq_getElem h1,
      List.getElem?_eq_getElem h3, List.getElem?_eq_getElem h4, ih, List.any_cons,
      on_bounded_side]
    split <;> simp_all

theorem does_A_contains_a_CC_of_B_eq
    (c : Collaborators Mesh Tree Traits Point Aff Bbox Vertex Face)
    (s : Rigid_mesh_collision_detection Mesh Tree Traits Point Aff Bbox)
    (h : Consistent c s) (id_A id_B : Nat)
    (hA : id_A < number_of_meshes s) (hB : id_B < number_of_meshes s) :
    does_A_contains_a_CC_of_B c s id_A id_B = some (contains_a_point_of c s id_A id_B) := by
  have h2 : id_B < s.m_points_per_cc.length := h.points_length ▸ hB
  simp only [does_A_contains_a_CC_of_B, contains_a_point_of, points_of,
    List.getElem?_eq_getElem h2, Option.getD_some]
  exact does_A_contains_a_CC_of_B_loop_eq c s h id_A id_B hA hB _

theorem number_of_meshes_after_update
    (c : Collaborators Mesh Tree Traits Point Aff Bbox Vertex Face)
    (s : Rigid_mesh_collision_detection Mesh Tree Traits Point Aff Bbox) :
    number_of_meshes (after_update c s) = number_of_meshes s := by
  simp only [number_of_meshes, after_update_meshes]

theorem closed_flag_after_update
    (c : Collaborators Mesh Tree Traits Point Aff Bbox Vertex Face)
    (s : Rigid_mesh_collision_detection Mesh Tree Traits Point Aff Bbox) (i : Nat) :
    closed_flag (after_update c s) i = closed_flag s i := by
  simp only [closed_flag, after_update_closed]

theorem contains_a_point_of_after_update
    (c : Collaborators Mesh Tree Traits Point Aff Bbox Vertex Face)
    (s : Rigid_mesh_collision_detection Mesh Tree Traits Point Aff Bbox) (id_A id_B : Nat) :
    contains_a_point_of c (after_update c s) id_A id_B = contains_a_point_of c s id_A id_B := by
  have e : on_bounded_side c (after_update c s) id_A id_B = on_bounded_side c s id_A id_B := by
    funext q
    simp only [on_bounded_side, after_update_trees, after_update_traits]
  simp only [contains_a_point_of, points_of, after_update_points, e]

theorem flatMap_singleton_if {α : Type} (p : α → Bool) (l : List α) :
    l.flatMap (fun k => if p k then [k] else []) = l.filter p := by
  induction l with
  | nil => rfl
  | cons a l ih =>
    rw [List.flatMap_cons, ih, List.filter_cons]
    cases p a <;> simp

theorem get_all_intersections_body_eq
    (c : Collaborators Mesh Tree Traits Point Aff Bbox Vertex Face)
    (s : Rigid_mesh_collision_detection Mesh Tree Traits Point Aff Bbox)
    (h : Consistent c s) (mesh_id k : Nat)
    (hid : mesh_id < number_of_meshes s) (hk : k < number_of_meshes s) (res : List Nat) :
    get_all_intersections_body c (after_update c s) mesh_id res k
      = some (res ++ if intersection_kept c s mesh_id k then [k] else []) := by
  unfold get_all_intersections_body intersection_kept
  by_cases hkid : k = mesh_id
  · simp [hkid]
  · rw [if_neg hkid, passes_box_filter_after_update c s h mesh_id k hid hk,
      trees_do_intersect_after_update]
    obtain ⟨b, hb⟩ := trees_do_intersect_isSome c s h k mesh_id hk hid
    rw [hb]
    cases box_filter c s mesh_id k <;> cases b <;> simp [hkid]

/-- Closed form of `get_all_intersections` on a consistent registry with ids in range:
the candidates kept, in the order given, and the registry with its boxes refreshed. -/
theorem get_all_intersections_eq_filter
    (c : Collaborators Mesh Tree Traits Point Aff Bbox Vertex Face)
    (s : Rigid_mesh_collision_detection Mesh Tree Traits Point Aff Bbox)
    (h : Consistent c s) (mesh_id : Nat) (ids : List Nat)
    (hid : mesh_id < number_of_meshes s) (hids : ∀ k ∈ ids, k < number_of_meshes s) :
    get_all_intersections c s mesh_id ids
      = some (ids.filter (intersection_kept c s mesh_id), after_update c s) := by
  unfold get_all_intersections
  rw [after_update_eq c s h]
  simp only
  rw [BOOST_FOREACH_append _ (fun k => if intersection_kept c s mesh_id k then [k] else []) ids
    (fun k hk res => get_all_intersections_body_eq c s h mesh_id k hid (hids k hk) res)]
  simp [flatMap_singleton_if]

theorem inclusions_branch_eq
    (c : Collaborators Mesh Tree Traits Point Aff Bbox Vertex Face)
    (s : Rigid_mesh_collision_detection Mesh Tree Traits Point Aff Bbox)
    (h : Consistent c s) (mesh_id k : Nat)
    (hid : mesh_id < number_of_meshes s) (hk : k < number_of_meshes s)
    (res : List (Nat × Bool)) :
    inclusions_branch c s mesh_id res k = some (res ++ inclusion_entries c s mesh_id k) := by
  have h1 : mesh_id < s.m_is_closed.length := h.closed_length ▸ hid
  have h2 : k < s.m_is_closed.length := h.closed_length ▸ hk
  unfold inclusions_branch inclusion_entries closed_flag
  simp only [does_A_contains_a_CC_of_B_eq c s h mesh_id k hid hk,
    does_A_contains_a_CC_of_B_eq c s h k mesh_id hk hid,
    List.getElem?_eq_getElem h1, List.getElem?_eq_getElem h2, Option.getD_some]
  cases s.m_is_closed[mesh_id] <;> cases s.m_is_closed[k] <;>
    cases contains_a_point_of c s mesh_id k <;> cases contains_a_point_of c s k mesh_id <;>
    simp

theorem get_all_intersections_and_inclusions_body_eq
    (c : Collaborators Mesh Tree Traits Point Aff Bbox Vertex Face)
    (s : Rigid_mesh_collision_detection Mesh Tree Traits Point Aff Bbox)
    (h : Consistent c s) (mesh_id k : Nat)
    (hid : mesh_id < number_of_meshes s) (hk : k < number_of_meshes s)
    (res : List (Nat × Bool)) :
    get_all_intersections_and_inclusions_body c (after_update c s) mesh_id res k
      = some (res ++ candidate_entries c s mesh_id k) := by
  unfold get_all_intersections_and_inclusions_body candidate_entries
  by_cases hkid : k = mesh_id
  · simp [hkid]
  · rw [if_neg hkid, if_neg hkid, passes_box_filter_after_update c s h mesh_id k hid hk,
      two_trees_intersection_found_after_update]
    obtain ⟨b, hb⟩ := two_trees_intersection_found_isSome c s h k mesh_id hk hid
    have hbr := inclusions_branch_eq c (after_update c s) (after_update_consistent c s h)
      mesh_id k (by rw [number_of_meshes_after_update]; exact hid)
      (by rw [number_of_meshes_after_update]; exact hk) res
    have hent : inclusion_entries c (after_update c s) mesh_id k
        = inclusion_entries c s mesh_id k := by
      simp only [inclusion_entries, closed_flag_after_update, contains_a_point_of_after_update]
    rw [hent] at hbr
    rw [hb]
    cases hbf : box_filter c s mesh_id k <;> cases b <;> simp [hbr]

/-- Closed form of `get_all_intersections_and_inclusions` on a consistent registry with
ids in range. -/
theorem get_all_intersections_and_inclusions_eq_flatMap
    (c : Collaborators Mesh Tree Traits Point Aff Bbox Vertex Face)
    (s : Rigid_mesh_collision_detection Mesh Tree Traits Point Aff Bbox)
    (h : Consistent c s) (mesh_id : Nat) (ids : List Nat)
    (hid : mesh_id < number_of_meshes s) (hids : ∀ k ∈ ids, k < number_of_meshes s) :
    get_all_intersections_and_inclusions c s mesh_id ids
      = some (ids.flatMap (candidate_entries c s mesh_id), after_update c s) := by
  unfold get_all_intersections_and_inclusions
  rw [after_update_eq c s h]
  simp only
  rw [BOOST_FOREACH_append _ (candidate_entries c s mesh_id) ids
    (fun k hk res =>
      get_all_intersections_and_inclusions_body_eq c s h mesh_id k hid (hids k hk) res)]
  simp

theorem Consistent_of_check (c : Collaborators Mesh Tree Traits Point Aff Bbox Vertex Face)
    [DecidableEq Bbox]
    (s : Rigid_mesh_collision_detection Mesh Tree Traits Point Aff Bbox)
    (h : consistent_check c s = true) : Consistent c s := by
  unfold consistent_check at h
  simp only [Bool.and_eq_true, decide_eq_true_eq, Bool.or_eq_true, Bool.not_eq_true',
    List.all_eq_true, List.mem_range] at h
  obtain ⟨⟨⟨⟨h1, h2⟩, h3⟩, h4⟩, h5⟩ := h
  refine ⟨h1, h2, h3, h4, ?_, ?_, ?_⟩
  · intro hc
    rcases h5 with h5 | h5
    · rw [hc] at h5; cases h5
    · exact h5.1.1
  · intro hc
    rcases h5 with h5 | h5
    · rw [hc] at h5; cases h5
    · exact h5.1.2
  · intro hc i hi
    rcases h5 with h5 | h5
    · rw [hc] at h5; cases h5
    · have hlt : i < s.m_bboxes_is_invalid.length := by
        by_contra hn
        rw [List.getElem?_eq_none (Nat.le_of_not_lt hn)] at hi
        cases hi
      have := h5.2 i hlt
      rw [List.getD_eq_getElem?_getD, hi] at this
      simpa using this

theorem candidate_entries_fst (c : Collaborators Mesh Tree Traits Point Aff Bbox Vertex Face)
    (s : Rigid_mesh_collision_detection Mesh Tree Traits Point Aff Bbox)
    (mesh_id k : Nat) (e : Nat × Bool) (he : e ∈ candidate_entries c s mesh_id k) :
    e.1 = k := by
  unfold candidate_entries inclusion_entries at he
  split_ifs at he <;> simp_all

theorem candidate_entries_true (c : Collaborators Mesh Tree Traits Point Aff Bbox Vertex Face)
    (s : Rigid_mesh_collision_detection Mesh Tree Traits Point Aff Bbox)
    (mesh_id k : Nat) :
    (k, true) ∈ candidate_entries c s mesh_id k ↔
      k ≠ mesh_id ∧ box_filter c s mesh_id k = true
      ∧ two_trees_intersection_found c s k mesh_id ≠ some true
      ∧ ((closed_flag s mesh_id = true ∧ contains_a_point_of c s mesh_id k = true)
        ∨ (closed_flag s k = true ∧ contains_a_point_of c s k mesh_id = true)) := by
  unfold candidate_entries inclusion_entries
  split_ifs <;> simp_all

theorem candidate_entries_false (c : Collaborators Mesh Tree Traits Point Aff Bbox Vertex Face)
    (s : Rigid_mesh_collision_detection Mesh Tree Traits Point Aff Bbox)
    (mesh_id k : Nat) :
    (k, false) ∈ candidate_entries c s mesh_id k ↔
      k ≠ mesh_id ∧ box_filter c s mesh_id k = true
      ∧ two_trees_intersection_found c s k mesh_id = some true := by
  unfold candidate_entries inclusion_entries
  split_ifs <;> simp_all

theorem mem_flatMap_candidate_entries
    (c : Collaborators Mesh Tree Traits Point Aff Bbox Vertex Face)
    (s : Rigid_mesh_collision_detection Mesh Tree Traits Point Aff Bbox)
    (mesh_id : Nat) (ids : List Nat) (X : Nat) (b : Bool) :
    (X, b) ∈ ids.flatMap (candidate_entries c s mesh_id)
      ↔ X ∈ ids ∧ (X, b) ∈ candidate_entries c s mesh_id X := by
  rw [List.mem_flatMap]
  constructor
  · rintro ⟨k, hk, he⟩
    have := candidate_entries_fst c s mesh_id k _ he
    simp only at this
    subst this
    exact ⟨hk, he⟩
  · rintro ⟨hX, he⟩
    exact ⟨X, hX, he⟩

theorem candidate_entries_map_fst
    (c : Collaborators Mesh Tree Traits Point Aff Bbox Vertex Face)
    (s : Rigid_mesh_collision_detection Mesh Tree Traits Point Aff Bbox)
    (mesh_id k : Nat) :
    (candidate_entries c s mesh_id k).map Prod.fst
      = if (candidate_entries c s mesh_id k).isEmpty then [] else [k] := by
  unfold candidate_entries inclusion_entries
  split_ifs <;> simp_all

theorem flatMap_candidate_entries_map_fst
    (c : Collaborators Mesh Tree Traits Point Aff Bbox Vertex Face)
    (s : Rigid_mesh_collision_detection Mesh Tree Traits Point Aff Bbox)
    (mesh_id : Nat) (ids : List Nat) :
    (ids.flatMap (candidate_entries c s mesh_id)).map Prod.fst
      = ids.filter (fun k => !(candidate_entries c s mesh_id k).isEmpty) := by
  induction ids with
  | nil => rfl
  | cons k ids ih =>
    rw [List.flatMap_cons, List.map_append, ih, candidate_entries_map_fst, List.filter_cons]
    cases (candidate_entries c s mesh_id k).isEmpty <;> simp

theorem contains_a_point_of_iff (c : Collaborators Mesh Tree Traits Point Aff Bbox Vertex Face)
    (s : Rigid_mesh_collision_detection Mesh Tree Traits Point Aff Bbox) (id_A id_B : Nat) :
    contains_a_point_of c s id_A id_B = true
      ↔ ∃ q ∈ points_of s id_B, on_bounded_side c s id_A id_B q = true := by
  simp [contains_a_point_of, List.any_eq_true]

/-! ## `remove_mesh` -/

theorem vec_pop_back_eq {α : Type} (v : List α) (h : 0 < v.length) :
    vec_pop_back v = some v.dropLast := by
  cases v with
  | nil => simp at h
  | cons a v => rfl

theorem remove_mesh_eq (c : Collaborators Mesh Tree Traits Point Aff Bbox Vertex Face)
    (s : Rigid_mesh_collision_detection Mesh Tree Traits Point Aff Bbox)
    (h : Consistent c s) (k : Nat) (hk : k < number_of_meshes s) :
    remove_mesh c s k = some (removed c s k) := by
  have h0 : k < s.m_triangle_mesh_ptrs.length := hk
  have h1 : k < s.m_aabb_trees.length := h.trees_length ▸ hk
  have h2 : k < s.m_is_closed.length := h.closed_length ▸ hk
  have h3 : k < s.m_points_per_cc.length := h.points_length ▸ hk
  have h4 : k < s.m_traversal_traits.length := Nat.lt_of_lt_of_le hk h.traits_length
  unfold remove_mesh removed
  rw [if_neg (Nat.not_le_of_lt h0)]
  simp only [vec_erase, h0, h1, h2, h3, h4, if_true]
  by_cases hc : c.CGAL_CACHE_BOXES = true
  · have hb : 0 < s.m_bboxes.length := by
      rw [h.boxes_length hc]; exact Nat.lt_of_le_of_lt (Nat.zero_le _) hk
    simp only [hc, if_true, vec_pop_back_eq _ hb]
  · simp only [hc]
    rfl

theorem vec_resize_length {α : Type} (v : List α) (n : Nat) (x : α) :
    (vec_resize v n x).length = n := by
  simp only [vec_resize, List.length_append, List.length_take, List.length_replicate]
  omega

theorem vec_resize_all_true (bits : List Bool) (n i : Nat) (hn : n ≤ bits.length) :
    (vec_resize (bits.map (fun _ => true)) n false)[i]? ≠ some false := by
  have hz : n - (bits.map (fun _ => true)).length = 0 := by
    rw [List.length_map]; omega
  simp only [vec_resize, hz, List.replicate_zero, List.append_nil]
  intro hcon
  have hmem : false ∈ (List.map (fun _ => true) bits).take n := by
    rw [List.mem_iff_getElem?]
    exact ⟨i, hcon⟩
  have := List.mem_of_mem_take hmem
  simp at this

theorem number_of_meshes_removed (c : Collaborators Mesh Tree Traits Point Aff Bbox Vertex Face)
    (s : Rigid_mesh_collision_detection Mesh Tree Traits Point Aff Bbox)
    (k : Nat) (hk : k < number_of_meshes s) :
    number_of_meshes (removed c s k) = number_of_meshes s - 1 := by
  show (s.m_triangle_mesh_ptrs.eraseIdx k).length = _
  rw [List.length_eraseIdx]
  simp only [number_of_meshes] at hk ⊢
  rw [if_pos hk]

theorem removed_consistent (c : Collaborators Mesh Tree Traits Point Aff Bbox Vertex Face)
    (s : Rigid_mesh_collision_detection Mesh Tree Traits Point Aff Bbox)
    (h : Consistent c s) (k : Nat) (hk : k < number_of_meshes s) :
    Consistent c (removed c s k) := by
  have hn := number_of_meshes_removed c s k hk
  have h1 : k < s.m_aabb_trees.length := h.trees_length ▸ hk
  have h2 : k < s.m_is_closed.length := h.closed_length ▸ hk
  have h3 : k < s.m_points_per_cc.length := h.points_length ▸ hk
  have h4 : k < s.m_traversal_traits.length := Nat.lt_of_lt_of_le hk h.traits_length
  have ht := h.traits_length
  refine ⟨?_, ?_, ?_, ?_, ?_, ?_, ?_⟩
  · rw [hn]; show (s.m_aabb_trees.eraseIdx k).length = _
    rw [List.length_eraseIdx, if_pos h1, h.trees_length]
  · rw [hn]; show (s.m_is_closed.eraseIdx k).length = _
    rw [List.length_eraseIdx, if_pos h2, h.closed_length]
  · rw [hn]; show (s.m_points_per_cc.eraseIdx k).length = _
    rw [List.length_eraseIdx, if_pos h3, h.points_length]
  · rw [hn]; show _ ≤ (s.m_traversal_traits.eraseIdx k).length
    rw [List.length_eraseIdx, if_pos h4]
    omega
  · intro hc
    rw [hn]
    show (if c.CGAL_CACHE_BOXES = true then s.m_bboxes.dropLast else s.m_bboxes).length = _
    rw [if_pos hc, List.length_dropLast, h.boxes_length hc]
  · intro hc
    show (if c.CGAL_CACHE_BOXES = true then _ else s.m_bboxes_is_invalid).length = _
    rw [if_pos hc, vec_resize_length]
    rfl
  · intro hc i hi
    exfalso
    have hi2 : (vec_resize (s.m_bboxes_is_invalid.map (fun _ => true))
        (s.m_triangle_mesh_ptrs.eraseIdx k).length false)[i]? = some false := by
      have e : (removed c s k).m_bboxes_is_invalid
          = vec_resize (s.m_bboxes_is_invalid.map (fun _ => true))
              (s.m_triangle_mesh_ptrs.eraseIdx k).length false := by
        show (if c.CGAL_CACHE_BOXES = true then _ else s.m_bboxes_is_invalid) = _
        rw [if_pos hc]
      rw [← e]; exact hi
    refine vec_resize_all_true _ _ i ?_ hi2
    rw [h.bits_length hc]
    exact List.length_eraseIdx_le _ _

theorem getElem?_eraseIdx_renumber {α : Type} (l : List α) (k j : Nat) (hj : j ≠ k) :
    (l.eraseIdx k)[renumber k j]? = l[j]? := by
  rw [List.getElem?_eraseIdx]
  unfold renumber
  by_cases hkj : k < j
  · rw [if_pos hkj, if_neg (by omega)]
    congr 1
    omega
  · rw [if_neg hkj, if_pos (by omega)]

theorem renumber_injective (k a b : Nat) (ha : a ≠ k) (hb : b ≠ k) :
    renumber k a = renumber k b ↔ a = b := by
  unfold renumber
  split_ifs <;> omega

section Removed

variable (c : Collaborators Mesh Tree Traits Point Aff Bbox Vertex Face)
  (s : Rigid_mesh_collision_detection Mesh Tree Traits Point Aff Bbox) (k : Nat)

theorem removed_trees (a : Nat) (ha : a ≠ k) :
    (removed c s k).m_aabb_trees[renumber k a]? = s.m_aabb_trees[a]? :=
  getElem?_eraseIdx_renumber _ k a ha

theorem removed_traits (a : Nat) (ha : a ≠ k) :
    (removed c s k).m_traversal_traits[renumber k a]? = s.m_traversal_traits[a]? :=
  getElem?_eraseIdx_renumber _ k a ha

theorem removed_closed (a : Nat) (ha : a ≠ k) :
    (removed c s k).m_is_closed[renumber k a]? = s.m_is_closed[a]? :=
  getElem?_eraseIdx_renumber _ k a ha

theorem removed_points (a : Nat) (ha : a ≠ k) :
    (removed c s k).m_points_per_cc[renumber k a]? = s.m_points_per_cc[a]? :=
  getElem?_eraseIdx_renumber _ k a ha

theorem world_bbox_removed (a : Nat) (ha : a ≠ k) :
    world_bbox c (removed c s k) (renumber k a) = world_bbox c s a := by
  simp only [world_bbox, removed_trees c s k a ha, removed_traits c s k a ha]

theorem box_filter_removed (a b : Nat) (ha : a ≠ k) (hb : b ≠ k) :
    box_filter c (removed c s k) (renumber k a) (renumber k b) = box_filter c s a b := by
  simp only [box_filter, boxes_overlap, world_bbox_removed c s k a ha,
    world_bbox_removed c s k b hb]

theorem trees_do_intersect_removed (a b : Nat) (ha : a ≠ k) (hb : b ≠ k) :
    trees_do_intersect c (removed c s k) (renumber k a) (renumber k b)
      = trees_do_intersect c s a b := by
  simp only [trees_do_intersect, removed_trees c s k a ha, removed_trees c s k b hb]

theorem two_trees_intersection_found_removed (a b : Nat) (ha : a ≠ k) (hb : b ≠ k) :
    two_trees_intersection_found c (removed c s k) (renumber k a) (renumber k b)
      = two_trees_intersection_found c s a b := by
  simp only [two_trees_intersection_found, removed_trees c s k a ha, removed_trees c s k b hb,
    removed_traits c s k a ha, removed_traits c s k b hb]

theorem closed_flag_removed (a : Nat) (ha : a ≠ k) :
    closed_flag (removed c s k) (renumber k a) = closed_flag s a := by
  simp only [closed_flag, removed_closed c s k a ha]

theorem points_of_removed (a : Nat) (ha : a ≠ k) :
    points_of (removed c s k) (renumber k a) = points_of s a := by
  simp only [points_of, removed_points c s k a ha]

theorem contains_a_point_of_removed (a b : Nat) (ha : a ≠ k) (hb : b ≠ k) :
    contains_a_point_of c (removed c s k) (renumber k a) (renumber k b)
      = contains_a_point_of c s a b := by
  have e : on_bounded_side c (removed c s k) (renumber k a) (renumber k b)
      = on_bounded_side c s a b := by
    funext q
    simp only [on_bounded_side, removed_trees c s k a ha, removed_traits c s k a ha,
      removed_traits c s k b hb]
  simp only [contains_a_point_of, points_of_removed c s k b hb, e]

theorem intersection_kept_removed (mesh_id j : Nat) (hid : mesh_id ≠ k) (hj : j ≠ k) :
    intersection_kept c (removed c s k) (renumber k mesh_id) (renumber k j)
      = intersection_kept c s mesh_id j := by
  have e : decide (renumber k j ≠ renumber k mesh_id) = decide (j ≠ mesh_id) := by
    simp only [ne_eq, renumber_injective k j mesh_id hj hid]
  simp only [intersection_kept, e, box_filter_removed c s k mesh_id j hid hj,
    trees_do_intersect_removed c s k j mesh_id hj hid]

theorem candidate_entries_removed (mesh_id j : Nat) (hid : mesh_id ≠ k) (hj : j ≠ k) :
    candidate_entries c (removed c s k) (renumber k mesh_id) (renumber k j)
      = (candidate_entries c s mesh_id j).map (fun e => (renumber k e.1, e.2)) := by
  simp only [candidate_entries, inclusion_entries, renumber_injective k j mesh_id hj hid,
    box_filter_removed c s k mesh_id j hid hj,
    two_trees_intersection_found_removed c s k j mesh_id hj hid,
    closed_flag_removed c s k mesh_id hid, closed_flag_removed c s k j hj,
    contains_a_point_of_removed c s k mesh_id j hid hj,
    contains_a_point_of_removed c s k j mesh_id hj hid]
  split_ifs <;> simp

theorem filter_kept_removed (mesh_id : Nat) (hid : mesh_id ≠ k) (ids : List Nat) :
    ((ids.filter (fun j => decide (j ≠ k))).map (renumber k)).filter
        (intersection_kept c (removed c s k) (renumber k mesh_id))
      = ((ids.filter (intersection_kept c s mesh_id)).filter
          (fun j => decide (j ≠ k))).map (renumber k) := by
  induction ids with
  | nil => rfl
  | cons j ids ih =>
    by_cases hj : j = k
    · have e1 : (j :: ids).filter (fun j => decide (j ≠ k))
          = ids.filter (fun j => decide (j ≠ k)) := by
        rw [List.filter_cons]; simp [hj]
      rw [e1, ih]
      rw [List.filter_cons (p := intersection_kept c s mesh_id)]
      split
      · rw [List.filter_cons]; simp [hj]
      · rfl
    · have e1 : (j :: ids).filter (fun j => decide (j ≠ k))
          = j :: ids.filter (fun j => decide (j ≠ k)) := by
        rw [List.filter_cons]; simp [hj]
      rw [e1, List.map_cons, List.filter_cons, ih, intersection_kept_removed c s k mesh_id j hid hj,
        List.filter_cons (p := intersection_kept c s mesh_id)]
      cases intersection_kept c s mesh_id j
      · simp
      · simp [List.filter_cons, hj]

theorem flatMap_entries_removed (mesh_id : Nat) (hid : mesh_id ≠ k) (ids : List Nat) :
    ((ids.filter (fun j => decide (j ≠ k))).map (renumber k)).flatMap
        (candidate_entries c (removed c s k) (renumber k mesh_id))
      = ((ids.flatMap (candidate_entries c s mesh_id)).filter
          (fun e => decide (e.1 ≠ k))).map (fun e => (renumber k e.1, e.2)) := by
  induction ids with
  | nil => rfl
  | cons j ids ih =>
    rw [List.flatMap_cons, List.filter_append, List.map_append, ← ih]
    by_cases hj : j = k
    · have e1 : (j :: ids).filter (fun j => decide (j ≠ k))
          = ids.filter (fun j => decide (j ≠ k)) := by
        rw [List.filter_cons]; simp [hj]
      have e2 : (candidate_entries c s mesh_id j).filter (fun e => decide (e.1 ≠ k)) = [] := by
        rw [List.filter_eq_nil_iff]
        intro e he
        have := candidate_entries_fst c s mesh_id j e he
        simp [this, hj]
      rw [e1, e2]
      rfl
    · have e1 : (j :: ids).filter (fun j => decide (j ≠ k))
          = j :: ids.filter (fun j => decide (j ≠ k)) := by
        rw [List.filter_cons]; simp [hj]
      have e2 : (candidate_entries c s mesh_id j).filter (fun e => decide (e.1 ≠ k))
          = candidate_entries c s mesh_id j := by
        rw [List.filter_eq_self]
        intro e he
        have := candidate_entries_fst c s mesh_id j e he
        simp [this, hj]
      rw [e1, e2, List.map_cons, List.flatMap_cons,
        candidate_entries_removed c s k mesh_id j hid hj]

theorem renumber_lt (n j : Nat) (hk : k < n) (hj : j < n) (hjk : j ≠ k) :
    renumber k j < n - 1 := by
  unfold renumber
  split_ifs <;> omega

end Removed

theorem range_filter_renumber (n k : Nat) (hk : k < n) :
    ((List.range n).filter (fun j => decide (j ≠ k))).map (renumber k) = List.range (n - 1) := by
  obtain ⟨m, rfl⟩ : ∃ m, n = k + 1 + m := ⟨n - (k + 1), by omega⟩
  have split3 : List.range (k + 1 + m)
      = List.range' 0 k ++ (k :: List.range' (k + 1) m) := by
    rw [List.range_eq_range', ← List.range'_succ, show k + 1 + m = (m + 1) + k by omega,
      ← List.range'_append_1]
    simp
  have f1 : (List.range' 0 k).filter (fun j => decide (j ≠ k)) = List.range' 0 k := by
    rw [List.filter_eq_self]
    intro a ha
    rw [List.mem_range'_1] at ha
    simp only [ne_eq, decide_eq_true_eq]
    omega
  have f2 : (List.range' (k + 1) m).filter (fun j => decide (j ≠ k))
      = List.range' (k + 1) m := by
    rw [List.filter_eq_self]
    intro a ha
    rw [List.mem_range'_1] at ha
    simp only [ne_eq, decide_eq_true_eq]
    omega
  have m1 : (List.range' 0 k).map (renumber k) = List.range' 0 k := by
    conv => rhs; rw [← List.map_id (List.range' 0 k)]
    apply List.map_congr_left
    intro a ha
    rw [List.mem_range'_1] at ha
    simp only [renumber, id]
    rw [if_neg (by omega)]
  have m2 : (List.range' (k + 1) m).map (renumber k) = List.range' k m := by
    have := @List.map_sub_range' 1 1 (k + 1) m (by omega)
    simp only [Nat.add_sub_cancel] at this
    rw [← this]
    apply List.map_congr_left
    intro a ha
    rw [List.mem_range'_1] at ha
    simp only [renumber]
    rw [if_pos (by omega)]
  rw [split3, List.filter_append, List.filter_cons, f1, f2]
  simp only [ne_eq, not_true_eq_false, decide_False, Bool.false_eq_true, if_false,
    List.map_append, m1, m2]
  rw [List.range_eq_range', show k + 1 + m - 1 = m + k by omega, ← List.range'_append_1]
  simp

/-! ## Registration: `add_cc_points`, `init`, `add_mesh` -/

section Registration

variable [DecidableEq Vertex]

theorem vec_resize_succ {α : Type} (v : List α) (x : α) :
    vec_resize v (v.length + 1) x = v ++ [x] := by
  simp [vec_resize, List.take_of_length_le]

theorem back_push_back_append (l : List (List Point)) (cc : List Point) (p : Point) :
    back_push_back (l ++ [cc]) p = l ++ [cc ++ [p]] := by
  induction l with
  | nil => rfl
  | cons a l ih =>
    cases l with
    | nil => rfl
    | cons b l =>
      simp only [List.cons_append] at ih ⊢
      rw [back_push_back, ih]

theorem add_cc_points_loop_null (c : Collaborators Mesh Tree Traits Point Aff Bbox Vertex Face)
    (tm : Mesh) (nb_cc : Nat) (faces : List Face) :
    ∀ pts pts1 : List (List Point),
      BOOST_FOREACH (add_cc_points_body c tm (List.replicate nb_cc c.null_vertex)) pts faces
        = some pts1 → pts1 = pts := by
  induction faces with
  | nil => intro pts pts1 h; simp [BOOST_FOREACH] at h; exact h.symm
  | cons f faces ih =>
    intro pts pts1 h
    rw [BOOST_FOREACH] at h
    have hb : add_cc_points_body c tm (List.replicate nb_cc c.null_vertex) pts f = none
        ∨ add_cc_points_body c tm (List.replicate nb_cc c.null_vertex) pts f = some pts := by
      unfold add_cc_points_body
      cases hv : (List.replicate nb_cc c.null_vertex)[c.face_index tm f]? with
      | none => left; rfl
      | some v =>
        right
        have hm : v ∈ List.replicate nb_cc c.null_vertex :=
          List.mem_iff_getElem?.2 ⟨_, hv⟩
        have : v = c.null_vertex := (List.mem_replicate.1 hm).2
        simp [this]
    rcases hb with hb | hb
    · rw [hb] at h; cases h
    · rw [hb] at h; exact ih pts pts1 h

/-- With `assume_one_CC = false` and a number of components different from 1,
`add_cc_points` appends an empty list of points whenever it returns. -/
theorem add_cc_points_several_components
    (c : Collaborators Mesh Tree Traits Point Aff Bbox Vertex Face)
    (s s1 : Rigid_mesh_collision_detection Mesh Tree Traits Point Aff Bbox) (tm : Mesh)
    (hcc : c.connected_components tm ≠ 1)
    (h : add_cc_points c s tm false = some s1) :
    s1 = { s with m_points_per_cc := s.m_points_per_cc ++ [[]] } := by
  unfold add_cc_points at h
  simp only [Bool.not_false, if_true, hcc, ne_eq, not_false_eq_true] at h
  cases hl : BOOST_FOREACH
      (add_cc_points_body c tm (List.replicate (c.connected_components tm) c.null_vertex))
      (vec_resize s.m_points_per_cc (s.m_points_per_cc.length + 1) []) (c.faces tm) with
  | none => rw [hl] at h; cases h
  | some pts1 =>
    rw [hl] at h
    have := add_cc_points_loop_null c tm _ _ _ _ hl
    rw [this, vec_resize_succ] at h
    exact (Option.some.inj h).symm

/-- With a single component (asserted or computed), `add_cc_points` appends the point of
the first vertex of the mesh. -/
theorem add_cc_points_one_component
    (c : Collaborators Mesh Tree Traits Point Aff Bbox Vertex Face)
    (s s1 : Rigid_mesh_collision_detection Mesh Tree Traits Point Aff Bbox) (tm : Mesh)
    (assume_one_CC : Bool)
    (hcc : assume_one_CC = true ∨ c.connected_components tm = 1)
    (h : add_cc_points c s tm assume_one_CC = some s1) :
    ∃ v vs, c.vertices tm = v :: vs
      ∧ s1 = { s with m_points_per_cc := s.m_points_per_cc ++ [[c.vertex_point tm v]] } := by
  unfold add_cc_points at h
  cases hv : c.vertices tm with
  | nil =>
    exfalso
    rcases hcc with hcc | hcc
    · simp [hcc, hv] at h
    · cases assume_one_CC <;> simp [hcc, hv] at h
  | cons v vs =>
    refine ⟨v, vs, rfl, ?_⟩
    have h2 : some ({ s with
          m_points_per_cc := back_push_back
            (vec_resize s.m_points_per_cc (s.m_points_per_cc.length + 1) [])
            (c.vertex_point tm v) } :
        Rigid_mesh_collision_detection Mesh Tree Traits Point Aff Bbox) = some s1 := by
      rcases hcc with hcc | hcc
      · simpa [hcc, hv] using h
      · cases assume_one_CC <;> simpa [hcc, hv] using h
    simp only [vec_resize_succ, back_push_back_append, List.nil_append] at h2
    exact (Option.some.inj h2).symm

theorem add_cc_points_eq (c : Collaborators Mesh Tree Traits Point Aff Bbox Vertex Face)
    (s s1 : Rigid_mesh_collision_detection Mesh Tree Traits Point Aff Bbox) (tm : Mesh)
    (assume_one_CC : Bool) (h : add_cc_points c s tm assume_one_CC = some s1) :
    ∃ cc, s1 = { s with m_points_per_cc := s.m_points_per_cc ++ [cc] } := by
  by_cases hcc : assume_one_CC = true ∨ c.connected_components tm = 1
  · obtain ⟨v, _, _, e⟩ := add_cc_points_one_component c s s1 tm assume_one_CC hcc h
    exact ⟨_, e⟩
  · have h1 : assume_one_CC = false := by
      cases assume_one_CC
      · rfl
      · exact absurd (Or.inl rfl) hcc
    subst h1
    exact ⟨[], add_cc_points_several_components c s s1 tm (fun e => hcc (Or.inr e)) h⟩

end Registration

section Preservation

variable [DecidableEq Vertex]

theorem BOOST_FOREACH_invariant {α σ : Type} (body : σ → α → Option σ)
    (I : σ → List α → Prop)
    (hstep : ∀ s a as s1, I s (a :: as) → body s a = some s1 → I s1 as) :
    ∀ (l : List α) (s s1 : σ), I s l → BOOST_FOREACH body s l = some s1 → I s1 [] := by
  intro l
  induction l with
  | nil =>
    intro s s1 hI h
    simp only [BOOST_FOREACH, Option.some.injEq] at h
    subst h
    exact hI
  | cons a l ih =>
    intro s s1 hI h
    rw [BOOST_FOREACH] at h
    cases hb : body s a with
    | none => rw [hb] at h; cases h
    | some s2 =>
      rw [hb] at h
      exact ih s2 s1 (hstep s a l s2 hI hb) h

theorem vec_assign_length {α : Type} (v v1 : List α) (i : Nat) (x : α)
    (h : vec_assign v i x = some v1) : v1.length = v.length := by
  unfold vec_assign at h
  split at h
  · cases h; simp
  · cases h

theorem init_body_eq (c : Collaborators Mesh Tree Traits Point Aff Bbox Vertex Face)
    (assume_one_CC : Bool)
    (s s1 : Rigid_mesh_collision_detection Mesh Tree Traits Point Aff Bbox) (tm : Mesh)
    (h : init_body c assume_one_CC s tm = some s1) :
    ∃ cl cc, cl.length = s.m_is_closed.length
      ∧ s1 = { m_triangle_mesh_ptrs := s.m_triangle_mesh_ptrs ++ [tm]
               m_aabb_trees := s.m_aabb_trees ++ [c.new_Tree tm]
               m_is_closed := cl
               m_points_per_cc := s.m_points_per_cc ++ [cc]
               m_traversal_traits :=
                 s.m_traversal_traits ++ [⟨c.traits (c.new_Tree tm), c.fresh_transfo⟩]
               m_bboxes_is_invalid := s.m_bboxes_is_invalid
               m_bboxes := s.m_bboxes } := by
  unfold init_body at h
  cases hcl : (if c.is_closed tm = true then
      vec_assign s.m_is_closed s.m_triangle_mesh_ptrs.length true
    else some s.m_is_closed) with
  | none => simp only [hcl] at h; cases h
  | some cl =>
    simp only [hcl] at h
    have hlen : cl.length = s.m_is_closed.length := by
      split at hcl
      · exact vec_assign_length _ _ _ _ hcl
      · cases hcl; rfl
    obtain ⟨cc, e⟩ := add_cc_points_eq c _ s1 tm assume_one_CC h
    exact ⟨cl, cc, hlen, e⟩

/-- Loop invariant of `init`: the meshes already handled have their entries, the
flags (and, with the cache, boxes and bits) have one slot per mesh of the range,
and every bit is set. -/
theorem init_loop_invariant (c : Collaborators Mesh Tree Traits Point Aff Bbox Vertex Face)
    (assume_one_CC : Bool) (l : List Mesh)
    (s s1 : Rigid_mesh_collision_detection Mesh Tree Traits Point Aff Bbox)
    (h1 : s.m_aabb_trees.length = s.m_triangle_mesh_ptrs.length)
    (h2 : s.m_points_per_cc.length = s.m_triangle_mesh_ptrs.length)
    (h3 : s.m_is_closed.length = s.m_triangle_mesh_ptrs.length + l.length)
    (h4 : s.m_triangle_mesh_ptrs.length ≤ s.m_traversal_traits.length)
    (h5 : c.CGAL_CACHE_BOXES = true →
      s.m_bboxes.length = s.m_triangle_mesh_ptrs.length + l.length
      ∧ s.m_bboxes_is_invalid.length = s.m_triangle_mesh_ptrs.length + l.length
      ∧ ∀ i : Nat, s.m_bboxes_is_invalid[i]? ≠ some false)
    (h : BOOST_FOREACH (init_body c assume_one_CC) s l = some s1) :
    Consistent c s1 := by
  have key := BOOST_FOREACH_invariant (init_body c assume_one_CC)
    (fun (s : Rigid_mesh_collision_detection Mesh Tree Traits Point Aff Bbox) (rest : List Mesh) =>
      s.m_aabb_trees.length = s.m_triangle_mesh_ptrs.length
      ∧ s.m_points_per_cc.length = s.m_triangle_mesh_ptrs.length
      ∧ s.m_is_closed.length = s.m_triangle_mesh_ptrs.length + rest.length
      ∧ s.m_triangle_mesh_ptrs.length ≤ s.m_traversal_traits.length
      ∧ (c.CGAL_CACHE_BOXES = true →
          s.m_bboxes.length = s.m_triangle_mesh_ptrs.length + rest.length
          ∧ s.m_bboxes_is_invalid.length = s.m_triangle_mesh_ptrs.length + rest.length
          ∧ ∀ i : Nat, s.m_bboxes_is_invalid[i]? ≠ some false))
    (by
      intro s a as s2 hI hb
      obtain ⟨cl, cc, hlen, e⟩ := init_body_eq c assume_one_CC s s2 a hb
      obtain ⟨i1, i2, i3, i4, i5⟩ := hI
      subst e
      simp only [List.length_append, List.length_cons, List.length_nil] at i3 i5 ⊢
      refine ⟨by omega, by omega, by omega, by omega, ?_⟩
      intro hc
      obtain ⟨j1, j2, j3⟩ := i5 hc
      exact ⟨by omega, by omega, j3⟩)
    l s s1 ⟨h1, h2, h3, h4, h5⟩ h
  obtain ⟨k1, k2, k3, k4, k5⟩ := key
  simp only [List.length_nil, Nat.add_zero] at k3 k5
  refine ⟨k1, k3, k2, k4, fun hc => (k5 hc).1, fun hc => (k5 hc).2.1, ?_⟩
  intro hc i hi
  exact absurd hi ((k5 hc).2.2 i)

theorem getElem?_replicate_ne {α : Type} (n i : Nat) (x y : α) (hxy : x ≠ y) :
    (List.replicate n x)[i]? ≠ some y := by
  intro hcon
  have hm : y ∈ List.replicate n x := List.mem_iff_getElem?.2 ⟨_, hcon⟩
  exact hxy (List.mem_replicate.1 hm).2.symm

/-- `init` leaves a consistent registry, whatever the registry it starts from. -/
theorem init_consistent (c : Collaborators Mesh Tree Traits Point Aff Bbox Vertex Face)
    (s s1 : Rigid_mesh_collision_detection Mesh Tree Traits Point Aff Bbox)
    (triangle_meshes : List Mesh) (assume_one_CC : Bool)
    (h : init c s triangle_meshes assume_one_CC = some s1) : Consistent c s1 := by
  unfold init at h
  refine init_loop_invariant c assume_one_CC triangle_meshes _ s1 ?_ ?_ ?_ ?_ ?_ h
  · split <;> rfl
  · split <;> rfl
  · split <;> simp [clear_trees, vec_resize]
  · split <;> simp [clear_trees]
  · intro hc
    simp only [hc, if_true, clear_trees, vec_resize, List.take_nil, List.nil_append,
      List.length_replicate, List.length_nil, Nat.sub_zero, Nat.zero_add, true_and]
    intro i
    exact getElem?_replicate_ne _ _ _ _ (by decide)

theorem construct_consistent (c : Collaborators Mesh Tree Traits Point Aff Bbox Vertex Face)
    (s1 : Rigid_mesh_collision_detection Mesh Tree Traits Point Aff Bbox)
    (triangle_meshes : List Mesh) (assume_one_CC : Bool)
    (h : construct c triangle_meshes assume_one_CC = some s1) : Consistent c s1 :=
  init_consistent c _ s1 triangle_meshes assume_one_CC h

end Preservation

section Preservation2

variable [DecidableEq Vertex]

theorem add_mesh_eq (c : Collaborators Mesh Tree Traits Point Aff Bbox Vertex Face)
    (s s1 : Rigid_mesh_collision_detection Mesh Tree Traits Point Aff Bbox)
    (tm : Mesh) (assume_one_CC : Bool) (h : add_mesh c s tm assume_one_CC = some s1) :
    ∃ cc, s1 = { m_triangle_mesh_ptrs := s.m_triangle_mesh_ptrs ++ [tm]
                 m_aabb_trees := s.m_aabb_trees ++ [c.new_Tree tm]
                 m_is_closed := s.m_is_closed ++ [c.is_closed tm]
                 m_points_per_cc := s.m_points_per_cc ++ [cc]
                 m_traversal_traits :=
                   s.m_traversal_traits ++ [⟨c.traits (c.new_Tree tm), c.fresh_transfo⟩]
                 m_bboxes_is_invalid :=
                   if c.CGAL_CACHE_BOXES then s.m_bboxes_is_invalid ++ [true]
                   else s.m_bboxes_is_invalid
                 m_bboxes := if c.CGAL_CACHE_BOXES then s.m_bboxes ++ [c.Bbox_3]
                   else s.m_bboxes } := by
  unfold add_mesh at h
  obtain ⟨cc, e⟩ := add_cc_points_eq c _ s1 tm assume_one_CC h
  refine ⟨cc, ?_⟩
  rw [e]
  cases hc : c.CGAL_CACHE_BOXES <;> simp [vec_resize_succ]

/-- `add_mesh` keeps a registry consistent. -/
theorem add_mesh_consistent (c : Collaborators Mesh Tree Traits Point Aff Bbox Vertex Face)
    (s s1 : Rigid_mesh_collision_detection Mesh Tree Traits Point Aff Bbox)
    (tm : Mesh) (assume_one_CC : Bool) (hs : Consistent c s)
    (h : add_mesh c s tm assume_one_CC = some s1) : Consistent c s1 := by
  obtain ⟨cc, e⟩ := add_mesh_eq c s s1 tm assume_one_CC h
  subst e
  have g1 := hs.trees_length
  have g2 := hs.closed_length
  have g3 := hs.points_length
  have g4 := hs.traits_length
  simp only [number_of_meshes] at g1 g2 g3 g4
  refine ⟨?_, ?_, ?_, ?_, ?_, ?_, ?_⟩
  · simp only [number_of_meshes, List.length_append, List.length_cons, List.length_nil]; omega
  · simp only [number_of_meshes, List.length_append, List.length_cons, List.length_nil]; omega
  · simp only [number_of_meshes, List.length_append, List.length_cons, List.length_nil]; omega
  · simp only [number_of_meshes, List.length_append, List.length_cons, List.length_nil]; omega
  · intro hc
    have := hs.boxes_length hc
    simp only [number_of_meshes] at this
    simp only [number_of_meshes, hc, if_true, List.length_append, List.length_cons,
      List.length_nil]
    omega
  · intro hc
    have := hs.bits_length hc
    simp only [number_of_meshes] at this
    simp only [number_of_meshes, hc, if_true, List.length_append, List.length_cons,
      List.length_nil]
    omega
  · intro hc i hi
    have hbits := hs.bits_length hc
    have hboxes := hs.boxes_length hc
    simp only [number_of_meshes] at hbits hboxes
    simp only [hc, if_true] at hi ⊢
    have hlt : i < s.m_bboxes_is_invalid.length := by
      by_contra hn
      rw [List.getElem?_append_right (Nat.le_of_not_lt hn)] at hi
      cases hd : i - s.m_bboxes_is_invalid.length with
      | zero => rw [hd] at hi; simp at hi
      | succ m => rw [hd] at hi; simp at hi
    rw [List.getElem?_append_left hlt] at hi
    rw [List.getElem?_append_left (by omega)]
    rw [hs.valid_box hc i hi]
    simp only [world_bbox]
    rw [List.getElem?_append_left (by omega), List.getElem?_append_left (by omega)]

end Preservation2

theorem set_transformation_eq (c : Collaborators Mesh Tree Traits Point Aff Bbox Vertex Face)
    (s s1 : Rigid_mesh_collision_detection Mesh Tree Traits Point Aff Bbox)
    (mesh_id : Nat) (aff_trans : Aff)
    (h : set_transformation c s mesh_id aff_trans = some s1) :
    ∃ tt, s.m_traversal_traits[mesh_id]? = some tt
      ∧ (c.CGAL_CACHE_BOXES = true → mesh_id < s.m_bboxes_is_invalid.length)
      ∧ s1 = { s with
          m_traversal_traits :=
            s.m_traversal_traits.set mesh_id (tt.set_transformation aff_trans)
          m_bboxes_is_invalid :=
            if c.CGAL_CACHE_BOXES then s.m_bboxes_is_invalid.set mesh_id true
            else s.m_bboxes_is_invalid } := by
  unfold set_transformation at h
  cases htt : s.m_traversal_traits[mesh_id]? with
  | none => simp only [htt] at h; cases h
  | some tt =>
    simp only [htt] at h
    refine ⟨tt, rfl, ?_⟩
    cases hc : c.CGAL_CACHE_BOXES
    · simp only [hc] at h
      simp only [Bool.false_eq_true, false_implies, if_false, true_and]
      exact (Option.some.inj h).symm
    · simp only [hc, if_true, vec_assign] at h
      by_cases hlt : mesh_id < s.m_bboxes_is_invalid.length
      · simp only [hlt, if_true] at h
        simp only [if_true, true_implies]
        exact ⟨hlt, (Option.some.inj h).symm⟩
      · simp only [hlt, if_false] at h
        cases h

/-- `set_transformation` keeps a registry consistent. -/
theorem set_transformation_consistent
    (c : Collaborators Mesh Tree Traits Point Aff Bbox Vertex Face)
    (s s1 : Rigid_mesh_collision_detection Mesh Tree Traits Point Aff Bbox)
    (mesh_id : Nat) (aff_trans : Aff) (hs : Consistent c s)
    (h : set_transformation c s mesh_id aff_trans = some s1) : Consistent c s1 := by
  obtain ⟨tt, htt, hin, e⟩ := set_transformation_eq c s s1 mesh_id aff_trans h
  subst e
  refine ⟨hs.trees_length, hs.closed_length, hs.points_length, ?_, hs.boxes_length, ?_, ?_⟩
  · simp only [number_of_meshes, List.length_set]
    exact hs.traits_length
  · intro hc
    simp only [number_of_meshes, hc, if_true, List.length_set]
    exact hs.bits_length hc
  · intro hc i hi
    simp only [hc, if_true] at hi
    have hne : mesh_id ≠ i := by
      intro e
      subst e
      rw [List.getElem?_set_self (hin hc)] at hi
      cases hi
    rw [List.getElem?_set_ne hne] at hi
    have := hs.valid_box hc i hi
    simp only [world_bbox] at this ⊢
    rw [List.getElem?_set_ne hne]
    exact this

/-- `remove_mesh` keeps a registry consistent, whatever the id. -/
theorem remove_mesh_consistent (c : Collaborators Mesh Tree Traits Point Aff Bbox Vertex Face)
    (s s1 : Rigid_mesh_collision_detection Mesh Tree Traits Point Aff Bbox)
    (mesh_id : Nat) (hs : Consistent c s)
    (h : remove_mesh c s mesh_id = some s1) : Consistent c s1 := by
  by_cases hk : mesh_id < number_of_meshes s
  · rw [remove_mesh_eq c s hs mesh_id hk] at h
    cases h
    exact removed_consistent c s hs mesh_id hk
  · have hge : mesh_id ≥ s.m_triangle_mesh_ptrs.length := Nat.le_of_not_lt hk
    unfold remove_mesh at h
    rw [if_pos hge] at h
    cases h
    exact hs

/-- Both queries leave the registry `after_update`, which is consistent. -/
theorem get_all_intersections_state
    (c : Collaborators Mesh Tree Traits Point Aff Bbox Vertex Face)
    (s s1 : Rigid_mesh_collision_detection Mesh Tree Traits Point Aff Bbox)
    (mesh_id : Nat) (ids res : List Nat) (hs : Consistent c s)
    (h : get_all_intersections c s mesh_id ids = some (res, s1)) :
    s1 = after_update c s := by
  unfold get_all_intersections at h
  rw [after_update_eq c s hs] at h
  simp only at h
  split at h
  · cases h
  · cases h; rfl

theorem get_all_intersections_and_inclusions_state
    (c : Collaborators Mesh Tree Traits Point Aff Bbox Vertex Face)
    (s s1 : Rigid_mesh_collision_detection Mesh Tree Traits Point Aff Bbox)
    (mesh_id : Nat) (ids : List Nat) (res : List (Nat × Bool)) (hs : Consistent c s)
    (h : get_all_intersections_and_inclusions c s mesh_id ids = some (res, s1)) :
    s1 = after_update c s := by
  unfold get_all_intersections_and_inclusions at h
  rw [after_update_eq c s hs] at h
  simp only at h
  split at h
  · cases h
  · cases h; rfl

section Preservation3

variable [DecidableEq Vertex]

/-- Every registry reachable from the constructor is consistent. -/
theorem Reachable.consistent (c : Collaborators Mesh Tree Traits Point Aff Bbox Vertex Face)
    (s : Rigid_mesh_collision_detection Mesh Tree Traits Point Aff Bbox)
    (h : Reachable c s) : Consistent c s := by
  induction h with
  | construct ms a s h => exact construct_consistent c s ms a h
  | init s s1 ms a _ h _ => exact init_consistent c s s1 ms a h
  | add_mesh s s1 tm a _ h ih => exact add_mesh_consistent c s s1 tm a ih h
  | remove_mesh s s1 k _ h ih => exact remove_mesh_consistent c s s1 k ih h
  | set_transformation s s1 k t _ h ih => exact set_transformation_consistent c s s1 k t ih h
  | update_bboxes s s1 _ hc h ih =>
    rw [update_bboxes_eq c s ih hc] at h
    cases h
    exact refreshed_consistent c s ih hc
  | get_all_intersections s s1 k ids res _ h ih =>
    rw [get_all_intersections_state c s s1 k ids res ih h]
    exact after_update_consistent c s ih
  | get_all_intersections_and_inclusions s s1 k ids res _ h ih =>
    rw [get_all_intersections_and_inclusions_state c s s1 k ids res ih h]
    exact after_update_consistent c s ih

end Preservation3

/-! ## The registries used as concrete inputs -/

theorem Line.nested_registry_constructed :
    Line.nested true = some Line.nested_registry := by
  decide

theorem Line.three_registry_constructed :
    ((construct (Line.collaborators true)
        [Line.outer, Line.touching_left, Line.inner] false).bind (fun s =>
      (get_all_intersections_all (Line.collaborators true) s 0).map Prod.snd))
      = some Line.three_registry := by
  decide

/-! ## What holds of the box cache -/

/-- With the cache, a query for a mesh whose recomputed box overlaps the box of no
candidate returns nothing. -/
theorem get_all_intersections_empty_of_boxes_disjoint
    (c : Collaborators Mesh Tree Traits Point Aff Bbox Vertex Face)
    (s : Rigid_mesh_collision_detection Mesh Tree Traits Point Aff Bbox)
    (h : Consistent c s) (hc : c.CGAL_CACHE_BOXES = true) (mesh_id : Nat) (ids : List Nat)
    (hid : mesh_id < number_of_meshes s) (hids : ∀ k ∈ ids, k < number_of_meshes s)
    (hfar : ∀ k ∈ ids, k ≠ mesh_id → boxes_overlap c s mesh_id k = false) :
    get_all_intersections c s mesh_id ids = some ([], after_update c s) := by
  rw [get_all_intersections_eq_filter c s h mesh_id ids hid hids]
  have : ids.filter (intersection_kept c s mesh_id) = [] := by
    rw [List.filter_eq_nil_iff]
    intro k hk
    unfold intersection_kept box_filter
    by_cases hne : k = mesh_id
    · simp [hne]
    · simp [hfar k hk hne, hc]
  rw [this]

/-- Without the cache, the result of `get_all_intersections` is a function of the stored
trees alone: two consistent registries with the same meshes and trees return the same
ids, whatever transformations they hold. -/
theorem get_all_intersections_ignores_transformations
    (c : Collaborators Mesh Tree Traits Point Aff Bbox Vertex Face)
    (s s1 : Rigid_mesh_collision_detection Mesh Tree Traits Point Aff Bbox)
    (h : Consistent c s) (h1 : Consistent c s1) (hc : c.CGAL_CACHE_BOXES = false)
    (hm : s1.m_triangle_mesh_ptrs = s.m_triangle_mesh_ptrs)
    (ht : s1.m_aabb_trees = s.m_aabb_trees)
    (mesh_id : Nat) (ids : List Nat)
    (hid : mesh_id < number_of_meshes s) (hids : ∀ k ∈ ids, k < number_of_meshes s) :
    (get_all_intersections c s1 mesh_id ids).map Prod.fst
      = (get_all_intersections c s mesh_id ids).map Prod.fst := by
  have hn : number_of_meshes s1 = number_of_meshes s := by
    simp only [number_of_meshes, hm]
  rw [get_all_intersections_eq_filter c s1 h1 mesh_id ids (hn ▸ hid)
      (fun k hk => hn ▸ hids k hk),
    get_all_intersections_eq_filter c s h mesh_id ids hid hids]
  have e : intersection_kept c s1 mesh_id = intersection_kept c s mesh_id := by
    funext k
    simp only [intersection_kept, box_filter, hc, trees_do_intersect, ht, Bool.not_false,
      Bool.true_or]
  simp only [Option.map_some', e]

theorem candidate_entries_with_cache
    (c : Collaborators Mesh Tree Traits Point Aff Bbox Vertex Face)
    (s0 s1 : Rigid_mesh_collision_detection Mesh Tree Traits Point Aff Bbox)
    (ht : s1.m_aabb_trees = s0.m_aabb_trees)
    (hcl : s1.m_is_closed = s0.m_is_closed)
    (hp : s1.m_points_per_cc = s0.m_points_per_cc)
    (htt : s1.m_traversal_traits = s0.m_traversal_traits)
    (mesh_id k : Nat)
    (hcons : two_trees_intersection_found c s0 k mesh_id = some true
        ∨ contains_a_point_of c s0 mesh_id k = true
        ∨ contains_a_point_of c s0 k mesh_id = true →
      boxes_overlap c s0 mesh_id k = true) :
    candidate_entries (with_cache c true) s1 mesh_id k
      = candidate_entries (with_cache c false) s0 mesh_id k := by
  have e1 : two_trees_intersection_found (with_cache c true) s1 k mesh_id
      = two_trees_intersection_found c s0 k mesh_id := by
    simp only [two_trees_intersection_found, with_cache, ht, htt]
  have e2 : two_trees_intersection_found (with_cache c false) s0 k mesh_id
      = two_trees_intersection_found c s0 k mesh_id := by
    simp only [two_trees_intersection_found, with_cache]
  have e3 : ∀ a b, contains_a_point_of (with_cache c true) s1 a b
      = contains_a_point_of c s0 a b := by
    intro a b
    have : on_bounded_side (with_cache c true) s1 a b = on_bounded_side c s0 a b := by
      funext q
      simp only [on_bounded_side, with_cache, ht, htt]
    simp only [contains_a_point_of, points_of, hp, this]
  have e4 : ∀ a b, contains_a_point_of (with_cache c false) s0 a b
      = contains_a_point_of c s0 a b := by
    intro a b
    have : on_bounded_side (with_cache c false) s0 a b = on_bounded_side c s0 a b := by
      funext q
      simp only [on_bounded_side, with_cache]
    simp only [contains_a_point_of, this]
  have e5 : ∀ a, closed_flag s1 a = closed_flag s0 a := by
    intro a
    simp only [closed_flag, hcl]
  have e6 : box_filter (with_cache c true) s1 mesh_id k = boxes_overlap c s0 mesh_id k := by
    simp only [box_filter, boxes_overlap, world_bbox, with_cache, ht, htt, Bool.not_true,
      Bool.false_or]
  have e7 : box_filter (with_cache c false) s0 mesh_id k = true := by
    simp only [box_filter, with_cache, Bool.not_false, Bool.true_or]
  simp only [candidate_entries, inclusion_entries, e1, e2, e3, e4, e5, e6, e7]
  by_cases hkid : k = mesh_id
  · simp [hkid]
  · cases hbo : boxes_overlap c s0 mesh_id k
    · rw [hbo] at hcons
      have n1 : two_trees_intersection_found c s0 k mesh_id ≠ some true :=
        fun e => by simpa using hcons (Or.inl e)
      have n2 : contains_a_point_of c s0 mesh_id k = false := by
        cases hx : contains_a_point_of c s0 mesh_id k
        · rfl
        · simpa using hcons (Or.inr (Or.inl hx))
      have n3 : contains_a_point_of c s0 k mesh_id = false := by
        cases hx : contains_a_point_of c s0 k mesh_id
        · rfl
        · simpa using hcons (Or.inr (Or.inr hx))
      simp [hkid, n1, n2, n3]
    · simp

/-- The part of C4 that holds: when the boxes are conservative for the candidates (a
found intersection or a contained point implies overlapping boxes), the build with the
cache and the build without it, on registries with the same meshes, trees, flags, points
and transformations, return the same entries from `get_all_intersections_and_inclusions`. -/
theorem get_all_intersections_and_inclusions_independent_of_cache
    (c : Collaborators Mesh Tree Traits Point Aff Bbox Vertex Face)
    (s0 s1 : Rigid_mesh_collision_detection Mesh Tree Traits Point Aff Bbox)
    (h0 : Consistent (with_cache c false) s0) (h1 : Consistent (with_cache c true) s1)
    (hm : s1.m_triangle_mesh_ptrs = s0.m_triangle_mesh_ptrs)
    (ht : s1.m_aabb_trees = s0.m_aabb_trees)
    (hcl : s1.m_is_closed = s0.m_is_closed)
    (hp : s1.m_points_per_cc = s0.m_points_per_cc)
    (htt : s1.m_traversal_traits = s0.m_traversal_traits)
    (mesh_id : Nat) (ids : List Nat)
    (hid : mesh_id < number_of_meshes s0) (hids : ∀ k ∈ ids, k < number_of_meshes s0)
    (hcons : ∀ k ∈ ids, two_trees_intersection_found c s0 k mesh_id = some true
        ∨ contains_a_point_of c s0 mesh_id k = true
        ∨ contains_a_point_of c s0 k mesh_id = true →
      boxes_overlap c s0 mesh_id k = true) :
    (get_all_intersections_and_inclusions (with_cache c true) s1 mesh_id ids).map Prod.fst
      = (get_all_intersections_and_inclusions (with_cache c false) s0 mesh_id ids).map
          Prod.fst := by
  have hn : number_of_meshes s1 = number_of_meshes s0 := by
    simp only [number_of_meshes, hm]
  rw [get_all_intersections_and_inclusions_eq_flatMap _ s1 h1 mesh_id ids (hn ▸ hid)
      (fun k hk => hn ▸ hids k hk),
    get_all_intersections_and_inclusions_eq_flatMap _ s0 h0 mesh_id ids hid hids]
  simp only [Option.map_some', Option.some.injEq]
  clear hids
  induction ids with
  | nil => rfl
  | cons k ids ih =>
    rw [List.flatMap_cons, List.flatMap_cons,
      candidate_entries_with_cache c s0 s1 ht hcl hp htt mesh_id k
        (hcons k (List.mem_cons_self _ _)),
      ih (fun j hj => hcons j (List.mem_cons_of_mem _ hj))]

section InitVectors

variable [DecidableEq Vertex]

/-- What `init` leaves in the vectors of meshes, trees and traversal traits: the first
two hold exactly the entries of the new range, the third keeps every element it had
before the call and receives the new ones behind them. -/
theorem init_vectors (c : Collaborators Mesh Tree Traits Point Aff Bbox Vertex Face)
    (s s1 : Rigid_mesh_collision_detection Mesh Tree Traits Point Aff Bbox)
    (triangle_meshes : List Mesh) (assume_one_CC : Bool)
    (h : init c s triangle_meshes assume_one_CC = some s1) :
    s1.m_triangle_mesh_ptrs = triangle_meshes
    ∧ s1.m_aabb_trees = triangle_meshes.map c.new_Tree
    ∧ s1.m_traversal_traits = s.m_traversal_traits
        ++ triangle_meshes.map (fun tm => ⟨c.traits (c.new_Tree tm), c.fresh_transfo⟩) := by
  unfold init at h
  have key := BOOST_FOREACH_invariant (init_body c assume_one_CC)
    (fun (t : Rigid_mesh_collision_detection Mesh Tree Traits Point Aff Bbox)
        (rest : List Mesh) =>
      t.m_triangle_mesh_ptrs ++ rest = triangle_meshes
      ∧ t.m_aabb_trees = t.m_triangle_mesh_ptrs.map c.new_Tree
      ∧ t.m_traversal_traits = s.m_traversal_traits
          ++ t.m_triangle_mesh_ptrs.map
              (fun tm => ⟨c.traits (c.new_Tree tm), c.fresh_transfo⟩))
    (by
      intro t a as t2 hI hb
      obtain ⟨cl, cc, _, e⟩ := init_body_eq c assume_one_CC t t2 a hb
      obtain ⟨i1, i2, i3⟩ := hI
      subst e
      refine ⟨?_, ?_, ?_⟩
      · simpa using i1
      · simp [i2]
      · simp [i3])
    triangle_meshes _ s1 (by split <;> simp [clear_trees]) h
  obtain ⟨k1, k2, k3⟩ := key
  rw [List.append_nil] at k1
  rw [k1] at k2 k3
  exact ⟨k1, k2, k3⟩

end InitVectors

theorem world_bbox_after_update (c : Collaborators Mesh Tree Traits Point Aff Bbox Vertex Face)
    (s : Rigid_mesh_collision_detection Mesh Tree Traits Point Aff Bbox) (i : Nat) :
    world_bbox c (after_update c s) i = world_bbox c s i := by
  simp only [world_bbox, after_update_trees, after_update_traits]

theorem intersection_kept_after_update
    (c : Collaborators Mesh Tree Traits Point Aff Bbox Vertex Face)
    (s : Rigid_mesh_collision_detection Mesh Tree Traits Point Aff Bbox) (mesh_id : Nat) :
    intersection_kept c (after_update c s) mesh_id = intersection_kept c s mesh_id := by
  funext k
  simp only [intersection_kept, box_filter, boxes_overlap, world_bbox_after_update,
    trees_do_intersect_after_update]

theorem candidate_entries_after_update
    (c : Collaborators Mesh Tree Traits Point Aff Bbox Vertex Face)
    (s : Rigid_mesh_collision_detection Mesh Tree Traits Point Aff Bbox) (mesh_id : Nat) :
    candidate_entries c (after_update c s) mesh_id = candidate_entries c s mesh_id := by
  funext k
  simp only [candidate_entries, inclusion_entries, box_filter, boxes_overlap,
    world_bbox_after_update, two_trees_intersection_found_after_update,
    closed_flag_after_update, contains_a_point_of_after_update]

theorem boxes_overlap_comm (c : Collaborators Mesh Tree Traits Point Aff Bbox Vertex Face)
    (s : Rigid_mesh_collision_detection Mesh Tree Traits Point Aff Bbox)
    (hsym : ∀ x y, c.do_overlap x y = c.do_overlap y x) (a b : Nat) :
    boxes_overlap c s a b = boxes_overlap c s b a := by
  unfold boxes_overlap
  cases world_bbox c s a <;> cases world_bbox c s b <;> simp [hsym]

theorem trees_do_intersect_comm (c : Collaborators Mesh Tree Traits Point Aff Bbox Vertex Face)
    (s : Rigid_mesh_collision_detection Mesh Tree Traits Point Aff Bbox)
    (hsym : ∀ x y, c.do_intersect x y = c.do_intersect y x) (a b : Nat) :
    trees_do_intersect c s a b = trees_do_intersect c s b a := by
  unfold trees_do_intersect
  cases s.m_aabb_trees[a]? <;> cases s.m_aabb_trees[b]? <;> simp [hsym]

theorem BOOST_FOREACH_skip {α σ : Type} (body : σ → α → Option σ) (res : σ) (ids : List α)
    (h : ∀ k ∈ ids, body res k = some res) : BOOST_FOREACH body res ids = some res := by
  induction ids with
  | nil => rfl
  | cons k ids ih =>
    rw [BOOST_FOREACH, h k (List.mem_cons_self _ _)]
    exact ih (fun j hj => h j (List.mem_cons_of_mem _ hj))

theorem Line.boundaries_meet_comm (m1 m2 : Line.Mesh) (a1 a2 : Nat) :
    Line.boundaries_meet m1 a1 m2 a2 = Line.boundaries_meet m2 a2 m1 a1 := by
  unfold Line.boundaries_meet
  rw [Bool.eq_iff_iff]
  simp only [List.any_eq_true, List.contains_eq_any_beq, beq_iff_eq]
  constructor
  · rintro ⟨p, h1, x, h2, rfl⟩; exact ⟨_, h2, _, h1, rfl⟩
  · rintro ⟨p, h1, x, h2, rfl⟩; exact ⟨_, h2, _, h1, rfl⟩

theorem Line.overlap_comm (b1 b2 : Option (Nat × Nat)) :
    Line.overlap b1 b2 = Line.overlap b2 b1 := by
  cases b1 <;> cases b2 <;> simp [Line.overlap, Bool.and_comm]

/-! ## The claims -/

/-- C1 (evaluation at the failing input): two segments touch in their local frames; after
`set_transformation(1, 100)` the traversal of the two transformed trees finds no
intersection, yet `get_all_intersections(0, [1])` without the box cache returns `[1]`:
`do_intersect` is given the stored trees, not the transformations. -/
theorem C1_get_all_intersections_reads_untransformed_trees :
    ((Line.moved_apart false).bind (fun s =>
        two_trees_intersection_found (Line.collaborators false) s 1 0)) = some false
    ∧ ((Line.moved_apart false).bind (fun s =>
        (get_all_intersections (Line.collaborators false) s 0 [1]).map Prod.fst))
      = some [1] := by
  decide

/-- C2 (counterexample): `inner` (id 1) is closed, no stored point of `outer` (id 0) is on
its bounded side and the boundaries do not intersect, yet the query for id 1 returns
`(0, true)`: the second test is made although id 1 is closed. -/
theorem C2_second_test_made_when_id_closed :
    (Line.nested false).map (fun s => closed_flag s 1) = some true
    ∧ ((Line.nested false).bind (fun s =>
        two_trees_intersection_found (Line.collaborators false) s 0 1)) = some false
    ∧ ((Line.nested false).bind (fun s =>
        does_A_contains_a_CC_of_B (Line.collaborators false) s 1 0)) = some false
    ∧ ((Line.nested false).bind (fun s =>
        (get_all_intersections_and_inclusions (Line.collaborators false) s 1 [0]).map
          Prod.fst)) = some [(0, true)] := by
  decide

/-- C2 (amended): on a consistent registry, for a candidate `k` different from `mesh_id`
that passes the box filter and whose traversal against `mesh_id` finds no intersection,
`(k, true)` is in the result exactly when `mesh_id` is closed and some stored point of `k`
is on its bounded side, or `k` is closed and some stored point of `mesh_id` is on the
bounded side of `k`: the second test is made whenever the first did not succeed, also
when `mesh_id` is closed. -/
theorem C2_inclusion_entry_iff (c : Collaborators Mesh Tree Traits Point Aff Bbox Vertex Face)
    (s : Rigid_mesh_collision_detection Mesh Tree Traits Point Aff Bbox)
    (h : Consistent c s) (mesh_id : Nat) (ids : List Nat)
    (hid : mesh_id < number_of_meshes s) (hids : ∀ j ∈ ids, j < number_of_meshes s)
    (k : Nat) (hk : k ∈ ids) (hne : k ≠ mesh_id)
    (hbox : box_filter c s mesh_id k = true)
    (hno : two_trees_intersection_found c s k mesh_id = some false) :
    ∃ res s1, get_all_intersections_and_inclusions c s mesh_id ids = some (res, s1)
      ∧ ((k, true) ∈ res ↔
          (closed_flag s mesh_id = true
            ∧ ∃ q ∈ points_of s k, on_bounded_side c s mesh_id k q = true)
          ∨ (closed_flag s k = true
            ∧ ∃ q ∈ points_of s mesh_id, on_bounded_side c s k mesh_id q = true)) := by
  refine ⟨_, _, get_all_intersections_and_inclusions_eq_flatMap c s h mesh_id ids hid hids, ?_⟩
  rw [mem_flatMap_candidate_entries, candidate_entries_true, contains_a_point_of_iff,
    contains_a_point_of_iff]
  constructor
  · rintro ⟨_, _, _, _, hor⟩
    exact hor
  · intro hor
    exact ⟨hk, hne, hbox, by rw [hno]; simp, hor⟩

/-- Witness of C2: the registry of `outer` and `inner` built with the cache, the query
for `inner` with the candidate `outer`. -/
theorem C2_inclusion_entry_iff_witness :
    Consistent (Line.collaborators true) Line.nested_registry
    ∧ box_filter (Line.collaborators true) Line.nested_registry 1 0 = true
    ∧ two_trees_intersection_found (Line.collaborators true) Line.nested_registry 0 1
        = some false
    ∧ ∃ res s1, get_all_intersections_and_inclusions (Line.collaborators true)
          Line.nested_registry 1 [0] = some (res, s1)
        ∧ ((0, true) ∈ res ↔
            (closed_flag Line.nested_registry 1 = true
              ∧ ∃ q ∈ points_of Line.nested_registry 0,
                  on_bounded_side (Line.collaborators true) Line.nested_registry 1 0 q = true)
            ∨ (closed_flag Line.nested_registry 0 = true
              ∧ ∃ q ∈ points_of Line.nested_registry 1,
                  on_bounded_side (Line.collaborators true) Line.nested_registry 0 1 q
                    = true)) :=
  ⟨Consistent_of_check _ _ (by decide), by decide, by decide,
    C2_inclusion_entry_iff (Line.collaborators true) Line.nested_registry
      (Consistent_of_check _ _ (by decide)) 1 [0] (by decide) (by decide) 0 (by decide)
      (by decide) (by decide) (by decide)⟩

/-- C3 (evaluation at the failing input): without the box cache,
`set_transformation_and_get_all_intersections(1, 100)` returns `[0]` although, under the
new transformation, the traversal of the transformed trees finds no intersection and the
boxes of the two meshes do not overlap; with the cache the same call returns `[]`. -/
theorem C3_moved_far_still_reported_without_cache :
    ((Line.touching false).bind (fun s =>
        (set_transformation_and_get_all_intersections
          (Line.collaborators false) s 1 100).map Prod.fst)) = some [0]
    ∧ ((Line.moved_apart false).bind (fun s =>
        two_trees_intersection_found (Line.collaborators false) s 0 1)) = some false
    ∧ (Line.moved_apart false).map (fun s =>
        boxes_overlap (Line.collaborators false) s 1 0) = some false
    ∧ ((Line.touching true).bind (fun s =>
        (set_transformation_and_get_all_intersections
          (Line.collaborators true) s 1 100).map Prod.fst)) = some [] := by
  decide

/-- C4 (evaluation at the failing input): after the same operations, with boxes that
are conservative for the two registered meshes, `get_all_intersections(0, [1])` returns
`[]` with the box cache and `[1]` without it. -/
theorem C4_cache_changes_get_all_intersections :
    ((Line.moved_apart true).bind (fun s =>
        (get_all_intersections (Line.collaborators true) s 0 [1]).map Prod.fst)) = some []
    ∧ ((Line.moved_apart false).bind (fun s =>
        (get_all_intersections (Line.collaborators false) s 0 [1]).map Prod.fst)) = some [1]
    ∧ (Line.moved_apart true).map (fun s =>
        (List.range 2).all (fun i => (List.range 2).all (fun j =>
          !(two_trees_intersection_found (Line.collaborators true) s i j == some true
            || contains_a_point_of (Line.collaborators true) s i j)
          || boxes_overlap (Line.collaborators true) s j i))) = some true := by
  decide

/-- C5 (evaluation at the failing input): a mesh with two connected components registered
with `assume_one_CC = false` gets no point at all, not two. -/
theorem C5_two_components_store_no_point :
    (Line.collaborators false).connected_components Line.two_shells = 2
    ∧ (construct (Line.collaborators false) [Line.two_shells] false).map
        (fun s => s.m_points_per_cc) = some [[]] := by
  decide

/-- C6 (evaluation at the failing input): after construction on no mesh and one
`add_mesh` of a mesh with two connected components, the registered mesh has an empty
list of points. -/
theorem C6_registered_mesh_without_point :
    ((construct (Line.collaborators false) [] false).bind (fun s =>
        add_mesh (Line.collaborators false) s Line.two_shells false)).map
      (fun s => (number_of_meshes s, s.m_points_per_cc.map List.length)) = some (1, [0]) := by
  decide

/-- C7 (evaluation at the failing input): `init` on a registry holding one mesh whose
transformation was set to 7 leaves two traversal-traits entries for the single new mesh,
and entry 0 still holds the old tree traits and the transformation 7. -/
theorem C7_init_keeps_old_traversal_traits :
    (((construct (Line.collaborators false) [Line.touching_left] true).bind (fun s =>
        set_transformation (Line.collaborators false) s 0 7)).bind (fun s =>
        init (Line.collaborators false) s [Line.touching_right] true)).map
      (fun s => (number_of_meshes s, s.m_aabb_trees, s.m_traversal_traits))
    = some (1, [Line.touching_right],
        [⟨Line.touching_left, 7⟩, ⟨Line.touching_right, 0⟩]) := by
  decide

/-- C8: on a consistent registry with `k` in range, `remove_mesh(k)` returns a consistent
registry with one mesh less, where every per-mesh vector keeps entry `i` for `i < k` and
holds at `i ≥ k` the entry previously at `i + 1`; for every surviving id and in-range
candidates, each query after the removal, asked with the renumbered surviving ids,
returns the result before the removal with `k` dropped and the ids above `k` decremented
(also for the overloads taking every registered mesh as candidate). -/
theorem C8_remove_mesh_renumbers
    (c : Collaborators Mesh Tree Traits Point Aff Bbox Vertex Face)
    (s : Rigid_mesh_collision_detection Mesh Tree Traits Point Aff Bbox)
    (h : Consistent c s) (k : Nat) (hk : k < number_of_meshes s) :
    ∃ s1, remove_mesh c s k = some s1
      ∧ Consistent c s1
      ∧ number_of_meshes s1 = number_of_meshes s - 1
      ∧ (∀ i, i < k →
          s1.m_triangle_mesh_ptrs[i]? = s.m_triangle_mesh_ptrs[i]?
          ∧ s1.m_aabb_trees[i]? = s.m_aabb_trees[i]?
          ∧ s1.m_is_closed[i]? = s.m_is_closed[i]?
          ∧ s1.m_points_per_cc[i]? = s.m_points_per_cc[i]?
          ∧ s1.m_traversal_traits[i]? = s.m_traversal_traits[i]?)
      ∧ (∀ i, k ≤ i →
          s1.m_triangle_mesh_ptrs[i]? = s.m_triangle_mesh_ptrs[i + 1]?
          ∧ s1.m_aabb_trees[i]? = s.m_aabb_trees[i + 1]?
          ∧ s1.m_is_closed[i]? = s.m_is_closed[i + 1]?
          ∧ s1.m_points_per_cc[i]? = s.m_points_per_cc[i + 1]?
          ∧ s1.m_traversal_traits[i]? = s.m_traversal_traits[i + 1]?)
      ∧ (∀ mesh_id ids, mesh_id < number_of_meshes s → mesh_id ≠ k →
          (∀ j ∈ ids, j < number_of_meshes s) →
          ∃ res t res1 t1,
            get_all_intersections c s mesh_id ids = some (res, t)
            ∧ get_all_intersections c s1 (renumber k mesh_id)
                ((ids.filter (fun j => decide (j ≠ k))).map (renumber k)) = some (res1, t1)
            ∧ res1 = (res.filter (fun j => decide (j ≠ k))).map (renumber k))
      ∧ (∀ mesh_id ids, mesh_id < number_of_meshes s → mesh_id ≠ k →
          (∀ j ∈ ids, j < number_of_meshes s) →
          ∃ res t res1 t1,
            get_all_intersections_and_inclusions c s mesh_id ids = some (res, t)
            ∧ get_all_intersections_and_inclusions c s1 (renumber k mesh_id)
                ((ids.filter (fun j => decide (j ≠ k))).map (renumber k)) = some (res1, t1)
            ∧ res1 = (res.filter (fun e => decide (e.1 ≠ k))).map
                (fun e => (renumber k e.1, e.2)))
      ∧ (∀ mesh_id, mesh_id < number_of_meshes s → mesh_id ≠ k →
          ∃ res t res1 t1,
            get_all_intersections_all c s mesh_id = some (res, t)
            ∧ get_all_intersections_all c s1 (renumber k mesh_id) = some (res1, t1)
            ∧ res1 = (res.filter (fun j => decide (j ≠ k))).map (renumber k))
      ∧ (∀ mesh_id, mesh_id < number_of_meshes s → mesh_id ≠ k →
          ∃ res t res1 t1,
            get_all_intersections_and_inclusions_all c s mesh_id = some (res, t)
            ∧ get_all_intersections_and_inclusions_all c s1 (renumber k mesh_id)
                = some (res1, t1)
            ∧ res1 = (res.filter (fun e => decide (e.1 ≠ k))).map
                (fun e => (renumber k e.1, e.2))) := by
  have hcons := removed_consistent c s h k hk
  have hn := number_of_meshes_removed c s k hk
  have hren : ∀ ids : List Nat, (∀ j ∈ ids, j < number_of_meshes s) →
      ∀ j ∈ (ids.filter (fun j => decide (j ≠ k))).map (renumber k),
        j < number_of_meshes (removed c s k) := by
    intro ids hids j hj
    rw [List.mem_map] at hj
    obtain ⟨a, ha, rfl⟩ := hj
    rw [List.mem_filter] at ha
    rw [hn]
    exact renumber_lt k _ a hk (hids a ha.1) (by simpa using ha.2)
  have hq1 : ∀ mesh_id ids, mesh_id < number_of_meshes s → mesh_id ≠ k →
      (∀ j ∈ ids, j < number_of_meshes s) →
      ∃ res t res1 t1,
        get_all_intersections c s mesh_id ids = some (res, t)
        ∧ get_all_intersections c (removed c s k) (renumber k mesh_id)
            ((ids.filter (fun j => decide (j ≠ k))).map (renumber k)) = some (res1, t1)
        ∧ res1 = (res.filter (fun j => decide (j ≠ k))).map (renumber k) := by
    intro mesh_id ids hid hne hids
    refine ⟨_, _, _, _, get_all_intersections_eq_filter c s h mesh_id ids hid hids,
      get_all_intersections_eq_filter c _ hcons _ _
        (by rw [hn]; exact renumber_lt k _ mesh_id hk hid hne) (hren ids hids), ?_⟩
    exact filter_kept_removed c s k mesh_id hne ids
  have hq2 : ∀ mesh_id ids, mesh_id < number_of_meshes s → mesh_id ≠ k →
      (∀ j ∈ ids, j < number_of_meshes s) →
      ∃ res t res1 t1,
        get_all_intersections_and_inclusions c s mesh_id ids = some (res, t)
        ∧ get_all_intersections_and_inclusions c (removed c s k) (renumber k mesh_id)
            ((ids.filter (fun j => decide (j ≠ k))).map (renumber k)) = some (res1, t1)
        ∧ res1 = (res.filter (fun e => decide (e.1 ≠ k))).map
            (fun e => (renumber k e.1, e.2)) := by
    intro mesh_id ids hid hne hids
    refine ⟨_, _, _, _, get_all_intersections_and_inclusions_eq_flatMap c s h mesh_id ids hid hids,
      get_all_intersections_and_inclusions_eq_flatMap c _ hcons _ _
        (by rw [hn]; exact renumber_lt k _ mesh_id hk hid hne) (hren ids hids), ?_⟩
    exact flatMap_entries_removed c s k mesh_id hne ids
  have hrange : List.range (removed c s k).m_aabb_trees.length
      = ((List.range s.m_aabb_trees.length).filter (fun j => decide (j ≠ k))).map
          (renumber k) := by
    rw [hcons.trees_length, hn, h.trees_length, range_filter_renumber _ k hk]
  have hall : ∀ j ∈ List.range s.m_aabb_trees.length, j < number_of_meshes s := by
    intro j hj
    rw [List.mem_range, h.trees_length] at hj
    exact hj
  refine ⟨removed c s k, remove_mesh_eq c s h k hk, hcons, hn, ?_, ?_, hq1, hq2, ?_, ?_⟩
  · intro i hi
    exact ⟨List.getElem?_eraseIdx_of_lt _ _ _ hi, List.getElem?_eraseIdx_of_lt _ _ _ hi,
      List.getElem?_eraseIdx_of_lt _ _ _ hi, List.getElem?_eraseIdx_of_lt _ _ _ hi,
      List.getElem?_eraseIdx_of_lt _ _ _ hi⟩
  · intro i hi
    exact ⟨List.getElem?_eraseIdx_of_ge _ _ _ hi, List.getElem?_eraseIdx_of_ge _ _ _ hi,
      List.getElem?_eraseIdx_of_ge _ _ _ hi, List.getElem?_eraseIdx_of_ge _ _ _ hi,
      List.getElem?_eraseIdx_of_ge _ _ _ hi⟩
  · intro mesh_id hid hne
    unfold get_all_intersections_all
    rw [hrange]
    exact hq1 mesh_id _ hid hne hall
  · intro mesh_id hid hne
    unfold get_all_intersections_and_inclusions_all
    rw [hrange]
    exact hq2 mesh_id _ hid hne hall

/-- Witness of C8: removal of mesh 1 from the registry of `outer`, `touching_left` and
`inner`; the query for `outer` before and after. -/
theorem C8_remove_mesh_renumbers_witness :
    Consistent (Line.collaborators true) Line.three_registry
    ∧ 1 < number_of_meshes Line.three_registry
    ∧ ∃ s1, remove_mesh (Line.collaborators true) Line.three_registry 1 = some s1
        ∧ number_of_meshes s1 = number_of_meshes Line.three_registry - 1
        ∧ ∃ res t res1 t1,
            get_all_intersections_and_inclusions_all (Line.collaborators true)
              Line.three_registry 0 = some (res, t)
            ∧ get_all_intersections_and_inclusions_all (Line.collaborators true) s1
                (renumber 1 0) = some (res1, t1)
            ∧ res1 = (res.filter (fun e => decide (e.1 ≠ 1))).map
                (fun e => (renumber 1 e.1, e.2)) := by
  have hc : Consistent (Line.collaborators true) Line.three_registry :=
    Consistent_of_check _ _ (by decide)
  obtain ⟨s1, h1, _, h3, _, _, _, _, _, h9⟩ :=
    C8_remove_mesh_renumbers (Line.collaborators true) Line.three_registry hc 1 (by decide)
  exact ⟨hc, by decide, s1, h1, h3, h9 0 (by decide) (by decide)⟩

/-- C9: on a consistent registry, for an id in range and candidates in range (repeated or
not), `get_all_intersections_and_inclusions` returns, and its result never holds both
`(X, false)` and `(X, true)`. -/
theorem C9_never_both_flags (c : Collaborators Mesh Tree Traits Point Aff Bbox Vertex Face)
    (s : Rigid_mesh_collision_detection Mesh Tree Traits Point Aff Bbox)
    (h : Consistent c s) (mesh_id : Nat) (ids : List Nat)
    (hid : mesh_id < number_of_meshes s) (hids : ∀ k ∈ ids, k < number_of_meshes s) :
    ∃ res s1, get_all_intersections_and_inclusions c s mesh_id ids = some (res, s1)
      ∧ ∀ X, ¬ ((X, false) ∈ res ∧ (X, true) ∈ res) := by
  refine ⟨_, _, get_all_intersections_and_inclusions_eq_flatMap c s h mesh_id ids hid hids, ?_⟩
  rintro X ⟨hf, ht⟩
  rw [mem_flatMap_candidate_entries] at hf ht
  have h1 := (candidate_entries_false c s mesh_id X).1 hf.2
  have h2 := (candidate_entries_true c s mesh_id X).1 ht.2
  exact h2.2.2.1 h1.2.2

/-- Witness of C9: the registry of `outer` and `inner`, the query for `outer` with the
candidate `inner` given twice. -/
theorem C9_never_both_flags_witness :
    Consistent (Line.collaborators true) Line.nested_registry
    ∧ 0 < number_of_meshes Line.nested_registry
    ∧ ∃ res s1, get_all_intersections_and_inclusions (Line.collaborators true)
          Line.nested_registry 0 [1, 1] = some (res, s1)
        ∧ ∀ X, ¬ ((X, false) ∈ res ∧ (X, true) ∈ res) :=
  ⟨Consistent_of_check _ _ (by decide), by decide,
    C9_never_both_flags (Line.collaborators true) Line.nested_registry
      (Consistent_of_check _ _ (by decide)) 0 [1, 1] (by decide) (by decide)⟩

/-- C10 (counterexample): with the candidate sequence `[0, 0]` the id 0 is the first
component of two entries of the result. -/
theorem C10_repeated_candidate_yields_two_entries :
    ((Line.nested false).bind (fun s =>
        (get_all_intersections_and_inclusions (Line.collaborators false) s 1 [0, 0]).map
          Prod.fst)) = some [(0, true), (0, true)]
    ∧ ¬ ([((0 : Nat), true), (0, true)].map Prod.fst).Nodup := by
  decide

/-- C10 (amended): on a consistent registry, for an id in range and candidates in range,
the first components of the entries returned by `get_all_intersections_and_inclusions`
form a sublist of the candidate sequence (at most one entry per occurrence of a
candidate); when the candidates are pairwise distinct no id is the first component of
two entries. -/
theorem C10_entries_sublist_of_candidates
    (c : Collaborators Mesh Tree Traits Point Aff Bbox Vertex Face)
    (s : Rigid_mesh_collision_detection Mesh Tree Traits Point Aff Bbox)
    (h : Consistent c s) (mesh_id : Nat) (ids : List Nat)
    (hid : mesh_id < number_of_meshes s) (hids : ∀ k ∈ ids, k < number_of_meshes s) :
    ∃ res s1, get_all_intersections_and_inclusions c s mesh_id ids = some (res, s1)
      ∧ (res.map Prod.fst).Sublist ids
      ∧ (ids.Nodup → (res.map Prod.fst).Nodup) := by
  refine ⟨_, _, get_all_intersections_and_inclusions_eq_flatMap c s h mesh_id ids hid hids, ?_⟩
  rw [flatMap_candidate_entries_map_fst]
  exact ⟨List.filter_sublist _, fun hn => hn.sublist (List.filter_sublist _)⟩

/-- Witness of C10: the registry of `outer`, `touching_left` and `inner`, the query for
`outer` with the candidates 2, 1, 0. -/
theorem C10_entries_sublist_of_candidates_witness :
    Consistent (Line.collaborators true) Line.three_registry
    ∧ [2, 1, 0].Nodup
    ∧ ∃ res s1, get_all_intersections_and_inclusions (Line.collaborators true)
          Line.three_registry 0 [2, 1, 0] = some (res, s1)
        ∧ (res.map Prod.fst).Sublist [2, 1, 0]
        ∧ ([2, 1, 0].Nodup → (res.map Prod.fst).Nodup) :=
  ⟨Consistent_of_check _ _ (by decide), by decide,
    C10_entries_sublist_of_candidates (Line.collaborators true) Line.three_registry
      (Consistent_of_check _ _ (by decide)) 0 [2, 1, 0] (by decide) (by decide)⟩

/-- C11: on a consistent registry whose boxes are conservative (with the cache, a
candidate whose traversal finds an intersection has a box overlapping the box of
`mesh_id`), for an id and candidates in range, the result of
`get_all_intersections_and_inclusions` holds `(k, true)` only for a candidate `k` different
from `mesh_id` whose traversal finds no intersection and such that `mesh_id` or `k` is
closed; a candidate other than `mesh_id` whose traversal finds an intersection contributes
exactly `(k, false)`, once per occurrence; a candidate whose traversal finds no
intersection, with neither mesh closed, contributes no entry. -/
theorem C11_entries_by_case (c : Collaborators Mesh Tree Traits Point Aff Bbox Vertex Face)
    (s : Rigid_mesh_collision_detection Mesh Tree Traits Point Aff Bbox)
    (h : Consistent c s) (mesh_id : Nat) (ids : List Nat)
    (hid : mesh_id < number_of_meshes s) (hids : ∀ j ∈ ids, j < number_of_meshes s)
    (hcons : c.CGAL_CACHE_BOXES = true → ∀ k,
      two_trees_intersection_found c s k mesh_id = some true →
      boxes_overlap c s mesh_id k = true) :
    ∃ res s1, get_all_intersections_and_inclusions c s mesh_id ids = some (res, s1)
      ∧ (∀ k, (k, true) ∈ res →
          k ∈ ids ∧ k ≠ mesh_id ∧ two_trees_intersection_found c s k mesh_id = some false
          ∧ (closed_flag s mesh_id = true ∨ closed_flag s k = true))
      ∧ (∀ k, k ≠ mesh_id → two_trees_intersection_found c s k mesh_id = some true →
          res.filter (fun e => decide (e.1 = k)) = List.replicate (ids.count k) (k, false))
      ∧ (∀ k, two_trees_intersection_found c s k mesh_id = some false →
          closed_flag s mesh_id = false → closed_flag s k = false →
          ∀ b, (k, b) ∉ res) := by
  refine ⟨_, _, get_all_intersections_and_inclusions_eq_flatMap c s h mesh_id ids hid hids,
    ?_, ?_, ?_⟩
  · intro k hk
    rw [mem_flatMap_candidate_entries, candidate_entries_true] at hk
    obtain ⟨hmem, hne, _, hnot, hcl⟩ := hk
    obtain ⟨b, hb⟩ := two_trees_intersection_found_isSome c s h k mesh_id (hids k hmem) hid
    refine ⟨hmem, hne, ?_, ?_⟩
    · cases b
      · exact hb
      · exact absurd hb hnot
    · rcases hcl with hcl | hcl
      · exact Or.inl hcl.1
      · exact Or.inr hcl.1
  · intro k hne hfound
    have hbox : box_filter c s mesh_id k = true := by
      unfold box_filter
      cases hc : c.CGAL_CACHE_BOXES
      · rfl
      · simp [hcons hc k hfound]
    have hk : candidate_entries c s mesh_id k = [(k, false)] := by
      simp [candidate_entries, hne, hbox, hfound]
    clear hids
    induction ids with
    | nil => rfl
    | cons j ids ih =>
      rw [List.flatMap_cons, List.filter_append, ih]
      by_cases hj : j = k
      · subst hj
        rw [hk]
        simp [List.count_cons, List.replicate_succ']
        rw [← List.replicate_succ, List.replicate_succ']
      · have e : (candidate_entries c s mesh_id j).filter (fun e => decide (e.1 = k)) = [] := by
          rw [List.filter_eq_nil_iff]
          intro e he
          have := candidate_entries_fst c s mesh_id j e he
          simp [this, hj]
        rw [e, List.count_cons_of_ne (fun h => hj h.symm)]
        rfl
  · intro k hno hc1 hc2 b hmem
    rw [mem_flatMap_candidate_entries] at hmem
    cases b
    · have := (candidate_entries_false c s mesh_id k).1 hmem.2
      rw [hno] at this
      simp at this
    · have := (candidate_entries_true c s mesh_id k).1 hmem.2
      rcases this.2.2.2 with hx | hx
      · rw [hc1] at hx; simp at hx
      · rw [hc2] at hx; simp at hx

/-- Witness of C11: the registry of `outer`, `touching_left` and `inner` with refreshed
boxes, the query for `outer` with the candidates 1, 2, 1: `touching_left` (id 1) touches
`outer` and is reported once per occurrence. -/
theorem C11_entries_by_case_witness :
    Consistent (Line.collaborators true) Line.three_registry
    ∧ (∀ k, k < 3 →
        two_trees_intersection_found (Line.collaborators true) Line.three_registry k 0
          = some true →
        boxes_overlap (Line.collaborators true) Line.three_registry 0 k = true)
    ∧ two_trees_intersection_found (Line.collaborators true) Line.three_registry 1 0
        = some true
    ∧ ∃ res s1, get_all_intersections_and_inclusions (Line.collaborators true)
          Line.three_registry 0 [1, 2, 1] = some (res, s1)
        ∧ (∀ k, (k, true) ∈ res →
            k ∈ [1, 2, 1] ∧ k ≠ 0
            ∧ two_trees_intersection_found (Line.collaborators true) Line.three_registry k 0
                = some false
            ∧ (closed_flag Line.three_registry 0 = true
                ∨ closed_flag Line.three_registry k = true))
        ∧ res.filter (fun e => decide (e.1 = 1)) = List.replicate ([1, 2, 1].count 1) (1, false)
        := by
  have hc : Consistent (Line.collaborators true) Line.three_registry :=
    Consistent_of_check _ _ (by decide)
  have hb : ∀ k, k < 3 →
      two_trees_intersection_found (Line.collaborators true) Line.three_registry k 0
        = some true →
      boxes_overlap (Line.collaborators true) Line.three_registry 0 k = true := by
    decide
  have hcons : (Line.collaborators true).CGAL_CACHE_BOXES = true → ∀ k,
      two_trees_intersection_found (Line.collaborators true) Line.three_registry k 0
        = some true →
      boxes_overlap (Line.collaborators true) Line.three_registry 0 k = true := by
    intro _ k hk
    by_cases hlt : k < 3
    · exact hb k hlt hk
    · exfalso
      have hnone : Line.three_registry.m_aabb_trees[k]? = none :=
        List.getElem?_eq_none (by simpa using Nat.le_of_not_lt hlt)
      simp [two_trees_intersection_found, hnone] at hk
  obtain ⟨res, s1, h1, h2, h3, _⟩ :=
    C11_entries_by_case (Line.collaborators true) Line.three_registry hc 0 [1, 2, 1]
      (by decide) (by decide) hcons
  exact ⟨hc, hb, by decide, res, s1, h1, h2, h3 1 (by decide) (by decide)⟩

/-- C12: on a consistent registry with both ids in range, `does_A_contains_a_CC_of_B`
returns, and returns `true` exactly when some stored point of `id_B`, moved by the current
transformation of `id_B`, is located `ON_BOUNDED_SIDE` of the tree of `id_A` by the ray
cast with the helper of `id_A`; a point so located makes the result `true` whatever the
points stored before and after it. -/
theorem C12_contains_iff_some_point_inside
    (c : Collaborators Mesh Tree Traits Point Aff Bbox Vertex Face)
    (s : Rigid_mesh_collision_detection Mesh Tree Traits Point Aff Bbox)
    (h : Consistent c s) (id_A id_B : Nat)
    (hA : id_A < number_of_meshes s) (hB : id_B < number_of_meshes s) :
    ∃ ttA ttB tA pts b,
      s.m_traversal_traits[id_A]? = some ttA ∧ s.m_traversal_traits[id_B]? = some ttB
      ∧ s.m_aabb_trees[id_A]? = some tA ∧ s.m_points_per_cc[id_B]? = some pts
      ∧ does_A_contains_a_CC_of_B c s id_A id_B = some b
      ∧ (b = true ↔ ∃ q ∈ pts,
          c.Point_inside_vertical_ray_cast ttA (c.transform ttB.transformation q) tA
            = Bounded_side.ON_BOUNDED_SIDE)
      ∧ (∀ before q after, pts = before ++ q :: after →
          c.Point_inside_vertical_ray_cast ttA (c.transform ttB.transformation q) tA
            = Bounded_side.ON_BOUNDED_SIDE → b = true) := by
  have h1 : id_A < s.m_aabb_trees.length := h.trees_length ▸ hA
  have h2 : id_B < s.m_points_per_cc.length := h.points_length ▸ hB
  have h3 : id_A < s.m_traversal_traits.length := Nat.lt_of_lt_of_le hA h.traits_length
  have h4 : id_B < s.m_traversal_traits.length := Nat.lt_of_lt_of_le hB h.traits_length
  have hiff : contains_a_point_of c s id_A id_B = true ↔ ∃ q ∈ s.m_points_per_cc[id_B],
      c.Point_inside_vertical_ray_cast s.m_traversal_traits[id_A]
        (c.transform s.m_traversal_traits[id_B].transformation q) s.m_aabb_trees[id_A]
        = Bounded_side.ON_BOUNDED_SIDE := by
    simp [contains_a_point_of, points_of, on_bounded_side, List.getElem?_eq_getElem h1,
      List.getElem?_eq_getElem h2, List.getElem?_eq_getElem h3, List.getElem?_eq_getElem h4]
  refine ⟨s.m_traversal_traits[id_A], s.m_traversal_traits[id_B], s.m_aabb_trees[id_A],
    s.m_points_per_cc[id_B], contains_a_point_of c s id_A id_B,
    List.getElem?_eq_getElem h3, List.getElem?_eq_getElem h4, List.getElem?_eq_getElem h1,
    List.getElem?_eq_getElem h2, does_A_contains_a_CC_of_B_eq c s h id_A id_B hA hB, hiff, ?_⟩
  intro before q after hpts hq
  rw [hiff]
  exact ⟨q, by rw [hpts]; simp, hq⟩

/-- Witness of C12: the registry `partial_registry`, does `outer` (id 0, moved by 3)
contain a point of `scattered` (id 1, moved by 2, stored points 20, 4, 30).  The first and
the last point are located on the unbounded side and the middle one on the bounded side:
the result is `true` although not every point is inside, with a point stored before the
hit and one after it. -/
theorem C12_contains_iff_some_point_inside_witness :
    Consistent (Line.collaborators true) Line.partial_registry
    ∧ 0 < number_of_meshes Line.partial_registry
    ∧ 1 < number_of_meshes Line.partial_registry
    ∧ Line.partial_registry.m_points_per_cc[1]? = some ([20] ++ 4 :: [30])
    ∧ (Line.collaborators true).Point_inside_vertical_ray_cast ⟨Line.outer, 3⟩
        ((Line.collaborators true).transform 2 20) Line.outer
        = Bounded_side.ON_UNBOUNDED_SIDE
    ∧ (Line.collaborators true).Point_inside_vertical_ray_cast ⟨Line.outer, 3⟩
        ((Line.collaborators true).transform 2 4) Line.outer
        = Bounded_side.ON_BOUNDED_SIDE
    ∧ (Line.collaborators true).Point_inside_vertical_ray_cast ⟨Line.outer, 3⟩
        ((Line.collaborators true).transform 2 30) Line.outer
        = Bounded_side.ON_UNBOUNDED_SIDE
    ∧ does_A_contains_a_CC_of_B (Line.collaborators true) Line.partial_registry 0 1
        = some true
    ∧ ∃ b, does_A_contains_a_CC_of_B (Line.collaborators true) Line.partial_registry 0 1
          = some b
        ∧ (b = true ↔ ∃ q ∈ [20, 4, 30],
            (Line.collaborators true).Point_inside_vertical_ray_cast ⟨Line.outer, 3⟩
              ((Line.collaborators true).transform 2 q) Line.outer
              = Bounded_side.ON_BOUNDED_SIDE)
        ∧ (∀ before q after, [20, 4, 30] = before ++ q :: after →
            (Line.collaborators true).Point_inside_vertical_ray_cast ⟨Line.outer, 3⟩
              ((Line.collaborators true).transform 2 q) Line.outer
              = Bounded_side.ON_BOUNDED_SIDE → b = true) := by
  have hc : Consistent (Line.collaborators true) Line.partial_registry :=
    Consistent_of_check _ _ (by decide)
  obtain ⟨ttA, ttB, tA, pts, b, h1, h2, h3, h4, h5, h6, h7⟩ :=
    C12_contains_iff_some_point_inside (Line.collaborators true) Line.partial_registry hc
      0 1 (by decide) (by decide)
  have e1 : Line.partial_registry.m_traversal_traits[0]? = some ⟨Line.outer, 3⟩ := by decide
  have e2 : Line.partial_registry.m_traversal_traits[1]? = some ⟨Line.scattered, 2⟩ := by
    decide
  have e3 : Line.partial_registry.m_aabb_trees[0]? = some Line.outer := by decide
  have e4 : Line.partial_registry.m_points_per_cc[1]? = some [20, 4, 30] := by decide
  rw [e1] at h1
  rw [e2] at h2
  rw [e3] at h3
  rw [e4] at h4
  cases h1
  cases h2
  cases h3
  cases h4
  have hin : (Line.collaborators true).Point_inside_vertical_ray_cast ⟨Line.outer, 3⟩
      ((Line.collaborators true).transform 2 4) Line.outer
      = Bounded_side.ON_BOUNDED_SIDE := by decide
  have hb : b = true := h7 [20] 4 [30] rfl hin
  refine ⟨hc, by decide, by decide, by decide, by decide, hin, by decide, ?_, b, h5, h6, h7⟩
  rw [h5, hb]

/-- C13: on a consistent registry with `mesh_id` in range, `set_transformation` returns;
afterwards the traversal traits of `mesh_id` hold the new transformation (and the same
tree traits) and, with the cache, the bit of `mesh_id` is set; the meshes, trees, flags,
points and boxes, and the traversal traits and bit of every other position, are unchanged. -/
theorem C13_set_transformation_frame
    (c : Collaborators Mesh Tree Traits Point Aff Bbox Vertex Face)
    (s : Rigid_mesh_collision_detection Mesh Tree Traits Point Aff Bbox)
    (h : Consistent c s) (mesh_id : Nat) (aff_trans : Aff)
    (hid : mesh_id < number_of_meshes s) :
    ∃ s1 tt, set_transformation c s mesh_id aff_trans = some s1
      ∧ s.m_traversal_traits[mesh_id]? = some tt
      ∧ s1.m_traversal_traits[mesh_id]? = some ⟨tt.m_traits, aff_trans⟩
      ∧ (c.CGAL_CACHE_BOXES = true → s1.m_bboxes_is_invalid[mesh_id]? = some true)
      ∧ s1.m_triangle_mesh_ptrs = s.m_triangle_mesh_ptrs
      ∧ s1.m_aabb_trees = s.m_aabb_trees
      ∧ s1.m_is_closed = s.m_is_closed
      ∧ s1.m_points_per_cc = s.m_points_per_cc
      ∧ s1.m_bboxes = s.m_bboxes
      ∧ s1.m_traversal_traits.length = s.m_traversal_traits.length
      ∧ s1.m_bboxes_is_invalid.length = s.m_bboxes_is_invalid.length
      ∧ (∀ j, j ≠ mesh_id →
          s1.m_traversal_traits[j]? = s.m_traversal_traits[j]?
          ∧ s1.m_bboxes_is_invalid[j]? = s.m_bboxes_is_invalid[j]?) := by
  have h3 : mesh_id < s.m_traversal_traits.length := Nat.lt_of_lt_of_le hid h.traits_length
  have hsome : ∃ s1, set_transformation c s mesh_id aff_trans = some s1 := by
    unfold set_transformation
    rw [List.getElem?_eq_getElem h3]
    by_cases hc : c.CGAL_CACHE_BOXES = true
    · have hb : mesh_id < s.m_bboxes_is_invalid.length := by
        rw [h.bits_length hc]; exact hid
      simp [hc, vec_assign, hb]
    · simp [hc]
  obtain ⟨s1, hs1⟩ := hsome
  obtain ⟨tt, htt, hin, e⟩ := set_transformation_eq c s s1 mesh_id aff_trans hs1
  subst e
  refine ⟨_, tt, hs1, htt, ?_, ?_, rfl, rfl, rfl, rfl, rfl, ?_, ?_, ?_⟩
  · simp only [List.getElem?_set_self h3]
    rfl
  · intro hc
    simp only [hc, if_true, List.getElem?_set_self (hin hc)]
  · simp only [List.length_set]
  · split <;> simp only [List.length_set]
  · intro j hj
    refine ⟨List.getElem?_set_ne (fun e => hj e.symm), ?_⟩
    split
    · exact List.getElem?_set_ne (fun e => hj e.symm)
    · rfl

/-- Witness of C13: the registry of `outer`, `touching_left` and `inner` with refreshed
boxes, `set_transformation(1, 50)`. -/
theorem C13_set_transformation_frame_witness :
    Consistent (Line.collaborators true) Line.three_registry
    ∧ 1 < number_of_meshes Line.three_registry
    ∧ ∃ s1, set_transformation (Line.collaborators true) Line.three_registry 1 50 = some s1
        ∧ s1.m_traversal_traits[1]? = some ⟨Line.touching_left, 50⟩
        ∧ s1.m_bboxes_is_invalid[1]? = some true
        ∧ s1.m_aabb_trees = Line.three_registry.m_aabb_trees
        ∧ s1.m_bboxes = Line.three_registry.m_bboxes
        ∧ (∀ j, j ≠ 1 →
            s1.m_traversal_traits[j]? = Line.three_registry.m_traversal_traits[j]?
            ∧ s1.m_bboxes_is_invalid[j]? = Line.three_registry.m_bboxes_is_invalid[j]?) := by
  have hc : Consistent (Line.collaborators true) Line.three_registry :=
    Consistent_of_check _ _ (by decide)
  obtain ⟨s1, tt, h1, h2, h3, h4, _, h6, _, _, h9, _, _, h12⟩ :=
    C13_set_transformation_frame (Line.collaborators true) Line.three_registry hc 1 50
      (by decide)
  have htt : tt = ⟨Line.touching_left, 0⟩ := by
    have e : Line.three_registry.m_traversal_traits[1]? = some ⟨Line.touching_left, 0⟩ := by
      decide
    rw [e] at h2
    exact (Option.some.inj h2).symm
  subst htt
  exact ⟨hc, by decide, s1, h1, h3, h4 rfl, h6, h9, h12⟩

/-- C14: on a consistent registry, for an id and candidates in range, each query called
a second time on the registry left by its first call returns the same sequence. -/
theorem C14_queries_idempotent (c : Collaborators Mesh Tree Traits Point Aff Bbox Vertex Face)
    (s : Rigid_mesh_collision_detection Mesh Tree Traits Point Aff Bbox)
    (h : Consistent c s) (mesh_id : Nat) (ids : List Nat)
    (hid : mesh_id < number_of_meshes s) (hids : ∀ j ∈ ids, j < number_of_meshes s) :
    (∃ res1 s1 res2 s2, get_all_intersections c s mesh_id ids = some (res1, s1)
        ∧ get_all_intersections c s1 mesh_id ids = some (res2, s2) ∧ res2 = res1)
    ∧ (∃ res1 s1 res2 s2,
        get_all_intersections_and_inclusions c s mesh_id ids = some (res1, s1)
        ∧ get_all_intersections_and_inclusions c s1 mesh_id ids = some (res2, s2)
        ∧ res2 = res1) := by
  have h1 := after_update_consistent c s h
  have hn := number_of_meshes_after_update c s
  constructor
  · refine ⟨_, _, _, _, get_all_intersections_eq_filter c s h mesh_id ids hid hids,
      get_all_intersections_eq_filter c _ h1 mesh_id ids (hn ▸ hid)
        (fun k hk => hn ▸ hids k hk), ?_⟩
    rw [intersection_kept_after_update]
  · refine ⟨_, _, _, _, get_all_intersections_and_inclusions_eq_flatMap c s h mesh_id ids hid hids,
      get_all_intersections_and_inclusions_eq_flatMap c _ h1 mesh_id ids (hn ▸ hid)
        (fun k hk => hn ▸ hids k hk), ?_⟩
    rw [candidate_entries_after_update]

/-- Witness of C14: the registry of `outer`, `touching_left` and `inner` before any query,
the queries for `outer` with the candidates 2, 1. -/
theorem C14_queries_idempotent_witness :
    Consistent (Line.collaborators true) Line.three_registry_fresh
    ∧ (∃ res1 s1 res2 s2,
        get_all_intersections (Line.collaborators true) Line.three_registry_fresh 0 [2, 1]
          = some (res1, s1)
        ∧ get_all_intersections (Line.collaborators true) s1 0 [2, 1] = some (res2, s2)
        ∧ res2 = res1)
    ∧ (∃ res1 s1 res2 s2,
        get_all_intersections_and_inclusions (Line.collaborators true)
          Line.three_registry_fresh 0 [2, 1] = some (res1, s1)
        ∧ get_all_intersections_and_inclusions (Line.collaborators true) s1 0 [2, 1]
          = some (res2, s2)
        ∧ res2 = res1) :=
  ⟨Consistent_of_check _ _ (by decide),
    C14_queries_idempotent (Line.collaborators true) Line.three_registry_fresh
      (Consistent_of_check _ _ (by decide)) 0 [2, 1] (by decide) (by decide)⟩

/-- C15: on a consistent registry, when `do_intersect` and `do_overlap` are symmetric, for
two ids `A` and `B` in range (distinct or not), `B` is in the result of `get_all_intersections(A)`
exactly when `A` is in the result of `get_all_intersections(B)`, the second query being
made on the same registry or on the one left by the first. -/
theorem C15_intersections_symmetric
    (c : Collaborators Mesh Tree Traits Point Aff Bbox Vertex Face)
    (s : Rigid_mesh_collision_detection Mesh Tree Traits Point Aff Bbox)
    (h : Consistent c s)
    (hint : ∀ x y, c.do_intersect x y = c.do_intersect y x)
    (hov : ∀ x y, c.do_overlap x y = c.do_overlap y x)
    (A B : Nat) (hA : A < number_of_meshes s) (hB : B < number_of_meshes s) :
    ∃ resA sA resB sB resB1 sB1,
      get_all_intersections_all c s A = some (resA, sA)
      ∧ get_all_intersections_all c s B = some (resB, sB)
      ∧ get_all_intersections_all c sA B = some (resB1, sB1)
      ∧ (B ∈ resA ↔ A ∈ resB) ∧ (B ∈ resA ↔ A ∈ resB1) := by
  have h1 := after_update_consistent c s h
  have hn := number_of_meshes_after_update c s
  have hall : ∀ j ∈ List.range s.m_aabb_trees.length, j < number_of_meshes s := by
    intro j hj
    rw [List.mem_range, h.trees_length] at hj
    exact hj
  have hall1 : ∀ j ∈ List.range (after_update c s).m_aabb_trees.length,
      j < number_of_meshes (after_update c s) := by
    intro j hj
    rw [List.mem_range, h1.trees_length] at hj
    exact hj
  have hkept : intersection_kept c s A B = intersection_kept c s B A := by
    have e : decide (B ≠ A) = decide (A ≠ B) := by
      simp only [ne_eq, decide_not, eq_comm]
    simp only [intersection_kept, box_filter, e, boxes_overlap_comm c s hov A B,
      trees_do_intersect_comm c s hint B A]
  have hmemA : A ∈ List.range s.m_aabb_trees.length := by
    rw [List.mem_range, h.trees_length]; exact hA
  have hmemB : B ∈ List.range s.m_aabb_trees.length := by
    rw [List.mem_range, h.trees_length]; exact hB
  refine ⟨_, _, _, _, _, _,
    get_all_intersections_eq_filter c s h A _ hA hall,
    get_all_intersections_eq_filter c s h B _ hB hall,
    get_all_intersections_eq_filter c _ h1 B _ (hn ▸ hB) hall1, ?_, ?_⟩
  · simp only [List.mem_filter, hmemA, hmemB, true_and, hkept]
  · rw [intersection_kept_after_update, after_update_trees]
    simp only [List.mem_filter, hmemA, hmemB, true_and, hkept]

/-- Witness of C15: the registry of `outer`, `touching_left` and `inner` before any query,
the ids 0 and 1; the tests of the line instance are symmetric. -/
theorem C15_intersections_symmetric_witness :
    Consistent (Line.collaborators true) Line.three_registry_fresh
    ∧ (∀ x y, (Line.collaborators true).do_intersect x y
        = (Line.collaborators true).do_intersect y x)
    ∧ (∀ x y, (Line.collaborators true).do_overlap x y
        = (Line.collaborators true).do_overlap y x)
    ∧ ∃ resA sA resB sB resB1 sB1,
        get_all_intersections_all (Line.collaborators true) Line.three_registry_fresh 0
          = some (resA, sA)
        ∧ get_all_intersections_all (Line.collaborators true) Line.three_registry_fresh 1
          = some (resB, sB)
        ∧ get_all_intersections_all (Line.collaborators true) sA 1 = some (resB1, sB1)
        ∧ (1 ∈ resA ↔ 0 ∈ resB) ∧ (1 ∈ resA ↔ 0 ∈ resB1) :=
  ⟨Consistent_of_check _ _ (by decide),
    fun x y => Line.boundaries_meet_comm x y 0 0, Line.overlap_comm,
    C15_intersections_symmetric (Line.collaborators true) Line.three_registry_fresh
      (Consistent_of_check _ _ (by decide))
      (fun x y => Line.boundaries_meet_comm x y 0 0) Line.overlap_comm 0 1
      (by decide) (by decide)⟩

/-- C16 (evaluation at the failing input): on the registry of `outer` and `inner`,
`set_transformation(2, 5)` reads `m_traversal_traits[2]` outside the bounds of the vector,
with or without the cache; and on the registry left by `init` over a registry that held
one mesh, `set_transformation(1, 9)` with the id 1 out of range returns a registry that
differs from the one it was given. -/
theorem C16_set_transformation_unguarded :
    set_transformation (Line.collaborators false) Line.nested_registry 2 5 = none
    ∧ set_transformation (Line.collaborators true) Line.nested_registry 2 5 = none
    ∧ (((construct (Line.collaborators false) [Line.touching_left] true).bind (fun s =>
          init (Line.collaborators false) s [Line.touching_right] true)).bind (fun s =>
          (set_transformation (Line.collaborators false) s 1 9).map (fun s1 =>
            (decide (number_of_meshes s ≤ 1), decide (s1 = s), s1.m_traversal_traits))))
        = some (true, false, [⟨Line.touching_left, 0⟩, ⟨Line.touching_right, 9⟩]) := by
  decide

/-- C17: `remove_mesh` with an id that is not below the number of registered meshes
returns the registry it was given, every member included. -/
theorem C17_remove_mesh_out_of_range
    (c : Collaborators Mesh Tree Traits Point Aff Bbox Vertex Face)
    (s : Rigid_mesh_collision_detection Mesh Tree Traits Point Aff Bbox)
    (mesh_id : Nat) (hid : number_of_meshes s ≤ mesh_id) :
    remove_mesh c s mesh_id = some s := by
  have hge : mesh_id ≥ s.m_triangle_mesh_ptrs.length := hid
  unfold remove_mesh
  rw [if_pos hge]

/-- Witness of C17: the registry of `outer` and `inner`, removal of the id 7. -/
theorem C17_remove_mesh_out_of_range_witness :
    number_of_meshes Line.nested_registry ≤ 7
    ∧ remove_mesh (Line.collaborators true) Line.nested_registry 7
        = some Line.nested_registry :=
  ⟨by decide,
    C17_remove_mesh_out_of_range (Line.collaborators true) Line.nested_registry 7
      (by decide)⟩

/-- C18 (counterexample): on the registry of `outer` and `inner`, both queries asked for
the unregistered id 5 with no candidate return the empty result. -/
theorem C18_unregistered_id_returns_a_result :
    ¬ (5 < number_of_meshes Line.nested_registry)
    ∧ (get_all_intersections (Line.collaborators true) Line.nested_registry 5 []).map
        Prod.fst = some []
    ∧ (get_all_intersections_and_inclusions (Line.collaborators true)
        Line.nested_registry 5 []).map Prod.fst = some [] := by
  decide

/-- C18 (amended): the queries make no range check and signal nothing: on a consistent
registry, for every id, registered or not, a query whose candidates are all equal to the
id (in particular a query without candidate) returns the empty result and the registry
with its boxes refreshed. -/
theorem C18_query_without_other_candidate
    (c : Collaborators Mesh Tree Traits Point Aff Bbox Vertex Face)
    (s : Rigid_mesh_collision_detection Mesh Tree Traits Point Aff Bbox)
    (h : Consistent c s) (mesh_id : Nat) (ids : List Nat)
    (hids : ∀ k ∈ ids, k = mesh_id) :
    get_all_intersections c s mesh_id ids = some ([], after_update c s)
    ∧ get_all_intersections_and_inclusions c s mesh_id ids = some ([], after_update c s) := by
  constructor
  · unfold get_all_intersections
    rw [after_update_eq c s h]
    simp only
    rw [BOOST_FOREACH_skip _ _ _ (fun k hk => by
      simp [get_all_intersections_body, hids k hk])]
  · unfold get_all_intersections_and_inclusions
    rw [after_update_eq c s h]
    simp only
    rw [BOOST_FOREACH_skip _ _ _ (fun k hk => by
      simp [get_all_intersections_and_inclusions_body, hids k hk])]

/-- Witness of C18: the registry of `outer` and `inner`, the unregistered id 5 and the
candidates 5, 5. -/
theorem C18_query_without_other_candidate_witness :
    Consistent (Line.collaborators true) Line.nested_registry
    ∧ get_all_intersections (Line.collaborators true) Line.nested_registry 5 [5, 5]
        = some ([], after_update (Line.collaborators true) Line.nested_registry)
    ∧ get_all_intersections_and_inclusions (Line.collaborators true) Line.nested_registry
        5 [5, 5] = some ([], after_update (Line.collaborators true) Line.nested_registry) :=
  ⟨Consistent_of_check _ _ (by decide),
    C18_query_without_other_candidate (Line.collaborators true) Line.nested_registry
      (Consistent_of_check _ _ (by decide)) 5 [5, 5] (by decide)⟩

/-- C19: with the cache, in every registry reachable from the constructor by `init`,
`add_mesh`, `remove_mesh`, `set_transformation`, `update_bboxes` and the two queries, the
vectors of boxes and of bits have one slot per registered mesh, and every mesh whose bit
is clear has as cached box the box `get_tree_bbox` computes from its traversal traits and
its tree. -/
theorem C19_cache_coherent [DecidableEq Vertex]
    (c : Collaborators Mesh Tree Traits Point Aff Bbox Vertex Face)
    (s : Rigid_mesh_collision_detection Mesh Tree Traits Point Aff Bbox)
    (hr : Reachable c s) (hc : c.CGAL_CACHE_BOXES = true) :
    s.m_bboxes.length = number_of_meshes s
    ∧ s.m_bboxes_is_invalid.length = number_of_meshes s
    ∧ ∀ i, i < number_of_meshes s → s.m_bboxes_is_invalid[i]? = some false →
        ∃ tt t, s.m_traversal_traits[i]? = some tt ∧ s.m_aabb_trees[i]? = some t
          ∧ s.m_bboxes[i]? = some (c.get_tree_bbox tt t) := by
  have h := Reachable.consistent c s hr
  refine ⟨h.boxes_length hc, h.bits_length hc, ?_⟩
  intro i hi hbit
  have ht : i < s.m_traversal_traits.length := Nat.lt_of_lt_of_le hi h.traits_length
  have htr : i < s.m_aabb_trees.length := h.trees_length ▸ hi
  refine ⟨s.m_traversal_traits[i], s.m_aabb_trees[i], List.getElem?_eq_getElem ht,
    List.getElem?_eq_getElem htr, ?_⟩
  rw [h.valid_box hc i hbit]
  simp [world_bbox, List.getElem?_eq_getElem ht, List.getElem?_eq_getElem htr]

/-- Witness of C19: the registry reached by the constructor on `outer`, `touching_left`
and `inner` followed by `get_all_intersections(0, [1])`: every bit is clear and every box
is the box of the tree. -/
theorem C19_cache_coherent_witness :
    Reachable (Line.collaborators true) Line.three_registry
    ∧ Line.three_registry.m_bboxes.length = number_of_meshes Line.three_registry
    ∧ Line.three_registry.m_bboxes_is_invalid.length = number_of_meshes Line.three_registry
    ∧ ∀ i, i < number_of_meshes Line.three_registry →
        Line.three_registry.m_bboxes_is_invalid[i]? = some false →
        ∃ tt t, Line.three_registry.m_traversal_traits[i]? = some tt
          ∧ Line.three_registry.m_aabb_trees[i]? = some t
          ∧ Line.three_registry.m_bboxes[i]?
              = some ((Line.collaborators true).get_tree_bbox tt t) := by
  have hr : Reachable (Line.collaborators true) Line.three_registry :=
    Reachable.get_all_intersections Line.three_registry_fresh Line.three_registry 0 [1] [1]
      (Reachable.construct [Line.outer, Line.touching_left, Line.inner] false
        Line.three_registry_fresh (by decide))
      (by decide)
  exact ⟨hr, C19_cache_coherent (Line.collaborators true) Line.three_registry hr rfl⟩

/-- C20 (evaluation at the failing input): two segments touch in their local frames and
the second is moved by 100; without the cache `get_all_intersections(0, [1])` returns `[1]`
while `get_all_intersections_and_inclusions(0, [1])` returns no entry with flag `false`. -/
theorem C20_queries_disagree_after_move :
    ((Line.moved_apart false).bind (fun s =>
        (get_all_intersections (Line.collaborators false) s 0 [1]).map Prod.fst))
      = some [1]
    ∧ ((Line.moved_apart false).bind (fun s =>
        (get_all_intersections_and_inclusions (Line.collaborators false) s 0 [1]).map
          (fun r => (r.1.filter (fun e => !e.2)).map Prod.fst))) = some [] := by
  decide

end Lemmas

end CGAL
